import Mathlib

/-
Verification of the input-device processing core (lv_core/lv_indev.c).

The development shallowly embeds the static functions of lv_indev.c over an
explicit widget/world state.  Widget primitives that live outside the core
file (lv_obj getters and setters, lv_area, lv_group, the tick source) are
modelled from the specification of the external interfaces; each such
definition carries a doc comment saying so.  Widget callbacks may request a
reset query; their other scene mutations are outside the model (the spec
requires callbacks not to re-enter the core, and no claim below depends on a
callback mutating the scene).  Machine integers are modelled as unbounded
integers: no claim below exercises coordinate overflow.
-/

set_option linter.unusedVariables false

deriving instance DecidableEq for Except

/-- Axis-aligned widget bounds, as in lv_area_t. -/
structure LvArea where
  x1 : Int
  y1 : Int
  x2 : Int
  y2 : Int
deriving Repr, DecidableEq

/-- A point, as in lv_point_t. -/
structure LvPoint where
  x : Int
  y : Int
deriving Repr, DecidableEq

/-- Modelled from the spec: lv_area_is_point_on (lv_misc/lv_area.c is not
under src); a point lies on an area iff it is inside the inclusive bounds. -/
def lv_area_is_point_on (a : LvArea) (p : LvPoint) : Bool :=
  a.x1 ≤ p.x && p.x ≤ a.x2 && a.y1 ≤ p.y && p.y ≤ a.y2

/-- Pressed / released sample state, as in lv_indev_state_t. -/
inductive IndevState where
  | rel
  | pr
deriving Repr, DecidableEq

/-- Modelled from the spec: the group key codes (lv_group.h is not under
src).  Only their distinctness matters to the core. -/
def LV_GROUP_KEY_NEXT : Nat := 9

/-- Modelled from the spec: group key code ENTER. -/
def LV_GROUP_KEY_ENTER : Nat := 10

/-- Modelled from the spec: group key code PREV. -/
def LV_GROUP_KEY_PREV : Nat := 11

/-- Modelled from the spec: group key code RIGHT. -/
def LV_GROUP_KEY_RIGHT : Nat := 19

/-- Modelled from the spec: group key code LEFT. -/
def LV_GROUP_KEY_LEFT : Nat := 20

/-- Signals delivered through a widget's signal_cb (lv_signal_t). -/
inductive LvSignal where
  | pressed
  | pressing
  | released
  | pressLost
  | longPress
  | longPressRep
  | dragBegin
  | dragEnd
  | getEditable
deriving Repr, DecidableEq

/-- Events delivered through lv_obj_send_event (lv_event_t). -/
inductive LvEvent where
  | pressed
  | pressing
  | released
  | clicked
  | longPressed
  | longPressedRepeat
  | pressLost
deriving Repr, DecidableEq

/-- Value carried on the event channel.  Modelled from the spec: the widget
contract lists the signal enum and the event enum as distinct sets
(lv_obj.h is not under src).  lv_obj_send_event expects an event, but in two
places the source passes a signal constant (the integer conversion in C is
silent); the sum type keeps the two families apart so the mismatch is
observable. -/
inductive EvMsg where
  | ev : LvEvent → EvMsg
  | sig : LvSignal → EvMsg
deriving Repr, DecidableEq

/-- Observable external effects of one processing call, in emission order. -/
inductive Emit where
  | signal : Nat → LvSignal → Emit
  | event : Nat → EvMsg → Emit
  | groupFocusNext : Emit
  | groupFocusPrev : Emit
  | groupSendData : Nat → Emit
  | groupSetEditing : Bool → Emit
  | groupFocusObj : Nat → Emit
deriving Repr, DecidableEq

/-- One widget of the scene graph.  Attribute fields are modelled from the
spec's widget contract (lv_obj.h is not under src): bounding rect, clickable,
hidden, draggable, drag-throw, drag-parent, top, the two protection flags,
parent link, child list, group membership, and the editability answer to the
GET_EDITABLE signal.  movable says whether the position setter actually
changes the coordinates (a widget may refuse a move); cbReset says whether
this widget's callbacks latch a reset query on the device that signalled
them. -/
structure ObjRec where
  parent : Option Nat
  children : List Nat
  coords : LvArea
  click : Bool
  hidden : Bool
  top : Bool
  drag : Bool
  dragThrow : Bool
  dragParent : Bool
  protPressLost : Bool
  protClickFocus : Bool
  movable : Bool
  editable : Bool
  cbReset : Bool
  group : Option Nat
deriving Repr, DecidableEq

/-- Modelled from the spec: a focus group (lv_group.c is not under src).
objs is the membership list (the head/tail pointer-equality test of the
source is the question whether it has at most one element). -/
structure GroupRec where
  objs : List Nat
  focused : Option Nat
  editing : Bool
  clickFocus : Bool
deriving Repr, DecidableEq

/-- The scene: widgets addressed by index, groups, and the length of the
render invalidation queue (only its length is observable to the core). -/
structure World where
  objs : List ObjRec
  groups : List GroupRec
  invCount : Nat
deriving Repr, DecidableEq

def obj_at (w : World) (i : Nat) : Option ObjRec := w.objs.get? i

def coords_of (w : World) (i : Nat) : LvArea :=
  match obj_at w i with
  | some o => o.coords
  | none => ⟨0, 0, 0, 0⟩

def lv_obj_get_parent (w : World) (i : Nat) : Option Nat :=
  match obj_at w i with
  | some o => o.parent
  | none => none

def lv_obj_get_click (w : World) (i : Nat) : Bool :=
  match obj_at w i with
  | some o => o.click
  | none => false

def lv_obj_get_drag (w : World) (i : Nat) : Bool :=
  match obj_at w i with
  | some o => o.drag
  | none => false

def lv_obj_get_drag_throw (w : World) (i : Nat) : Bool :=
  match obj_at w i with
  | some o => o.dragThrow
  | none => false

def cb_reset_of (w : World) (i : Nat) : Bool :=
  match obj_at w i with
  | some o => o.cbReset
  | none => false

/-- Protection query against press-lost, on a possibly absent widget
reference (never consulted on none by the source paths modelled here). -/
def prot_press_lost (w : World) (o : Option Nat) : Bool :=
  match o with
  | some i => (match obj_at w i with | some r => r.protPressLost | none => false)
  | none => false

def prot_click_focus (w : World) (o : Option Nat) : Bool :=
  match o with
  | some i => (match obj_at w i with | some r => r.protClickFocus | none => false)
  | none => false

def lv_obj_get_group (w : World) (i : Nat) : Option Nat :=
  match obj_at w i with
  | some o => o.group
  | none => none

/-- Modelled from the spec: origin of a widget's parent, used by the
relative position getter and setter. -/
def parent_origin (w : World) (i : Nat) : LvPoint :=
  match obj_at w i with
  | some o =>
    (match o.parent with
     | some pi =>
       (match obj_at w pi with
        | some po => ⟨po.coords.x1, po.coords.y1⟩
        | none => ⟨0, 0⟩)
     | none => ⟨0, 0⟩)
  | none => ⟨0, 0⟩

/-- Modelled from the spec: lv_obj_get_x, position relative to the parent. -/
def lv_obj_get_x (w : World) (i : Nat) : Int :=
  match obj_at w i with
  | some o => o.coords.x1 - (parent_origin w i).x
  | none => 0

/-- Modelled from the spec: lv_obj_get_y. -/
def lv_obj_get_y (w : World) (i : Nat) : Int :=
  match obj_at w i with
  | some o => o.coords.y1 - (parent_origin w i).y
  | none => 0

/-- Modelled from the spec: lv_obj_get_width of a possibly absent widget. -/
def lv_obj_get_width (w : World) (o : Option Nat) : Int :=
  match o with
  | some i =>
    (match obj_at w i with
     | some r => r.coords.x2 - r.coords.x1 + 1
     | none => 0)
  | none => 0

/-- Modelled from the spec: lv_obj_get_height of a possibly absent widget. -/
def lv_obj_get_height (w : World) (o : Option Nat) : Int :=
  match o with
  | some i =>
    (match obj_at w i with
     | some r => r.coords.y2 - r.coords.y1 + 1
     | none => 0)
  | none => 0

/-- Modelled from the spec: lv_obj_set_pos places the widget at the given
position relative to its parent.  A widget may refuse the move (movable is
false): then its coordinates do not change, which is exactly the situation
the drag engine detects by comparing coordinates around the call.  The call
always pushes one speculative invalidation onto the render queue. -/
def lv_obj_set_pos (w : World) (i : Nat) (x y : Int) : World :=
  match w.objs.get? i with
  | none => w
  | some o =>
    let orig := parent_origin w i
    let newCoords : LvArea :=
      if o.movable then
        ⟨orig.x + x, orig.y + y,
         orig.x + x + (o.coords.x2 - o.coords.x1),
         orig.y + y + (o.coords.y2 - o.coords.y1)⟩
      else o.coords
    { w with objs := w.objs.set i { o with coords := newCoords },
             invCount := w.invCount + 1 }

/-- Modelled from the spec: drop the given number of entries from the render
invalidation queue. -/
def lv_disp_pop_from_inv_buf (w : World) (n : Nat) : World :=
  { w with invCount := w.invCount - n }

/-- Modelled from the spec: lv_obj_invalidate pushes one area. -/
def lv_obj_invalidate (w : World) (i : Nat) : World :=
  { w with invCount := w.invCount + 1 }

/-- Modelled from the spec: focused widget of a group. -/
def lv_group_get_focused (w : World) (gi : Nat) : Option Nat :=
  match w.groups.get? gi with
  | some g => g.focused
  | none => none

/-- Modelled from the spec: the editing flag of a possibly absent group
(group operations no-op silently when unconfigured). -/
def lv_group_get_editing (w : World) (g : Option Nat) : Bool :=
  match g with
  | some gi => (match w.groups.get? gi with | some gr => gr.editing | none => false)
  | none => false

/-- Modelled from the spec: set the editing flag of a group. -/
def lv_group_set_editing (w : World) (g : Option Nat) (b : Bool) : World :=
  match g with
  | some gi =>
    (match w.groups.get? gi with
     | some gr => { w with groups := w.groups.set gi { gr with editing := b } }
     | none => w)
  | none => w

/-- Modelled from the spec: click-focus enable flag of a group. -/
def lv_group_get_click_focus (w : World) (gi : Nat) : Bool :=
  match w.groups.get? gi with
  | some g => g.clickFocus
  | none => false

/-- Modelled from the spec: the source's head = tail test on the group's
linked list, true iff the group holds at most one widget. -/
def lv_group_head_eq_tail (w : World) (gi : Nat) : Bool :=
  match w.groups.get? gi with
  | some g => g.objs.length ≤ 1
  | none => true

/-- Pointer-family processing state (proc.types.pointer of the source,
field names kept, including the wait_unil_release typo). -/
structure PointerState where
  act_point : LvPoint
  last_point : LvPoint
  act_obj : Option Nat
  last_obj : Option Nat
  vect : LvPoint
  drag_sum : LvPoint
  drag_throw_vect : LvPoint
  drag_limit_out : Bool
  drag_in_prog : Bool
  wait_unil_release : Bool
deriving Repr, DecidableEq

/-- Key-family processing state (proc.types.keypad of the source). -/
structure KeypadState where
  last_state : IndevState
  last_key : Nat
deriving Repr, DecidableEq

/-- Per-device processing state (lv_indev_proc_t).  The source overloads one
record with both families; both are carried here. -/
structure Proc where
  pointer : PointerState
  keypad : KeypadState
  pr_timestamp : Nat
  longpr_rep_timestamp : Nat
  long_pr_sent : Bool
  reset_query : Bool
  disabled : Bool
deriving Repr, DecidableEq

/-- Processing state at device registration: everything cleared. -/
def proc_init : Proc :=
  { pointer := { act_point := ⟨0, 0⟩, last_point := ⟨0, 0⟩, act_obj := none,
                 last_obj := none, vect := ⟨0, 0⟩, drag_sum := ⟨0, 0⟩,
                 drag_throw_vect := ⟨0, 0⟩, drag_limit_out := false,
                 drag_in_prog := false, wait_unil_release := false },
    keypad := { last_state := IndevState.rel, last_key := 0 },
    pr_timestamp := 0, longpr_rep_timestamp := 0, long_pr_sent := false,
    reset_query := false, disabled := false }

/-- Configuration constants consumed by the core (lv_conf.h values
LV_INDEV_DRAG_LIMIT, LV_INDEV_DRAG_THROW, LV_INDEV_LONG_PRESS_TIME,
LV_INDEV_LONG_PRESS_REP_TIME). -/
structure LvConf where
  drag_limit : Int
  drag_throw : Int
  long_press_time : Nat
  long_press_rep_time : Nat
deriving Repr, DecidableEq

/-- The three scene roots of the active display, in the order the press path
searches them. -/
structure LvDisp where
  layer_sys : Nat
  layer_top : Nat
  scr_act : Nat
deriving Repr, DecidableEq

/-- One HAL sample (lv_indev_data_t). -/
structure IndevData where
  point : LvPoint
  key : Nat
  btn_id : Nat
  enc_diff : Int
  state : IndevState
deriving Repr, DecidableEq

/-- Modelled from the spec: lv_tick_elaps, elapsed ticks with unsigned
32-bit wrap-around subtraction. -/
def lv_tick_elaps (now prev : Nat) : Nat :=
  (now % 2 ^ 32 + 2 ^ 32 - prev % 2 ^ 32) % 2 ^ 32

/-- Modelled from the spec: LV_MATH_ABS of lv_math.h. -/
def lv_math_abs (x : Int) : Int := if x > 0 then x else -x

/-- Widget callbacks may latch a reset query on the device that signalled
them; this applies one callback delivery to the processing state. -/
def cb_mark_reset (w : World) (i : Nat) (p : Proc) : Proc :=
  if cb_reset_of w i then { p with reset_query := true } else p

/-- Fuel bound for parent-chain walks: parent chains of an acyclic world are
shorter than the number of widgets. -/
def walk_fuel (w : World) : Nat := w.objs.length + 1

/-- Fuel bound for the recursive scene search: a depth-first traversal of an
acyclic world makes fewer steps than this. -/
def search_fuel (w : World) : Nat := w.objs.length * w.objs.length + w.objs.length + 1

/-- Hidden-chain walk of indev_search_obj (lines 858-864): a widget is
screened out when it or any ancestor is hidden.  Fuel exhaustion (only
reachable from a cyclic parent graph, where the C loop would not terminate)
answers false. -/
def hidden_chain (w : World) : Nat → Option Nat → Bool
  | _, none => false
  | 0, some _ => false
  | Nat.succ f, some i =>
    match obj_at w i with
    | none => false
    | some o => o.hidden || hidden_chain w f o.parent

/-- Worklist form of indev_search_obj (lines 837-870): the head of the list
is the widget under examination, the tail its not-yet-visited younger
siblings.  When the point is on the widget its children are searched first
(in child-list order, the source's LL_READ); only if no child hit and the
widget is clickable with no hidden ancestor is the widget itself the hit.
A widget whose bounds do not contain the point is skipped together with its
whole subtree, exactly as the source returns NULL before looking at
children.  Fuel decreases once per step; fuel exhaustion yields none. -/
def search_core (w : World) (pt : LvPoint) : Nat → List Nat → Option Nat
  | _, [] => none
  | 0, _ :: _ => none
  | Nat.succ f, i :: rest =>
    match obj_at w i with
    | none => search_core w pt f rest
    | some o =>
      if lv_area_is_point_on o.coords pt then
        match search_core w pt f o.children with
        | some r => some r
        | none =>
          if o.click && !(hidden_chain w (walk_fuel w) (some i)) then some i
          else search_core w pt f rest
      else search_core w pt f rest

/-- Entry point of indev_search_obj on a single root. -/
def indev_search_obj (w : World) (pt : LvPoint) (fuel : Nat) (root : Nat) : Option Nat :=
  search_core w pt fuel [root]

/-- Root search order of indev_proc_press (lines 591-594 and 599-601):
system layer, then top layer, then the active screen, stopping at the first
hit. -/
def indev_press_search (w : World) (pt : LvPoint) (d : LvDisp) : Option Nat :=
  match indev_search_obj w pt (search_fuel w) d.layer_sys with
  | some o => some o
  | none =>
    match indev_search_obj w pt (search_fuel w) d.layer_top with
    | some o => some o
    | none => indev_search_obj w pt (search_fuel w) d.scr_act

/-- Hit-tester written from the spec's words (section 4.2), for comparison
with the source's indev_search_obj: a depth-first children-first search over
the whole subtree in which a widget qualifies iff the point lies in its
bounds, it is clickable, no ancestor (itself included) is hidden, and none
of its descendants qualifies; the first qualifying widget in traversal
order wins.  Unlike the source, nothing is pruned: children are examined
even when the point lies outside the parent's bounds. -/
def find_target_core (w : World) (pt : LvPoint) : Nat → List Nat → Option Nat
  | _, [] => none
  | 0, _ :: _ => none
  | Nat.succ f, i :: rest =>
    match obj_at w i with
    | none => find_target_core w pt f rest
    | some o =>
      match find_target_core w pt f o.children with
      | some r => some r
      | none =>
        if lv_area_is_point_on o.coords pt && o.click
            && !(hidden_chain w (walk_fuel w) (some i)) then some i
        else find_target_core w pt f rest

/-- Entry point of the spec-worded hit-tester on a single root. -/
def find_target_spec (w : World) (pt : LvPoint) (fuel : Nat) (root : Nat) : Option Nat :=
  find_target_core w pt fuel [root]

/-- Containment of one area in another. -/
def area_inside (inner outer : LvArea) : Bool :=
  outer.x1 ≤ inner.x1 && inner.x2 ≤ outer.x2 && outer.y1 ≤ inner.y1 && inner.y2 ≤ outer.y2

/-- Decidable well-formedness: every child's bounds lie inside its parent's
bounds. -/
def wf_containedB (w : World) : Bool :=
  (List.range w.objs.length).all fun i =>
    match obj_at w i with
    | none => true
    | some o => o.children.all fun c =>
        match obj_at w c with
        | none => true
        | some oc => area_inside oc.coords o.coords

/-- Drag-parent walk shared by indev_drag (lines 881-884) and
indev_drag_throw (lines 959-962).  The C loop condition evaluates
lv_obj_get_drag_parent(drag_obj) before testing drag_obj against NULL, so
when the walk steps past the root while every widget on the chain has
drag-parent set, the attribute is queried on a NULL object: that
dereference is the error value here.  Fuel exhaustion (cyclic parent graph,
where the C loop would not terminate) returns the current reference. -/
def drag_obj_walk (w : World) : Nat → Option Nat → Except Unit (Option Nat)
  | 0, o => Except.ok o
  | Nat.succ f, none => Except.error ()
  | Nat.succ f, some i =>
    if (match obj_at w i with | some r => r.dragParent | none => false) then
      drag_obj_walk w f (lv_obj_get_parent w i)
    else Except.ok (some i)

/-- Drag engine, indev_drag (lines 876-945).  Resolves the effective drag
target, accumulates drag_sum, latches drag_limit_out past the dead-zone and
then applies vect to the target's position.  The source sends DRAG_BEGIN
under the test drag_in_prog != 0 (line 924), i.e. when a drag is already in
progress, although its own comment says the signal belongs to the first
move; the transcription keeps that behaviour. -/
def indev_drag (cfg : LvConf) (w : World) (p : Proc) : Except Unit (Proc × World × List Emit) :=
  match drag_obj_walk w (walk_fuel w) p.pointer.act_obj with
  | Except.error e => Except.error e
  | Except.ok none => Except.ok (p, w, [])
  | Except.ok (some dObj) =>
    if lv_obj_get_drag w dObj = false then Except.ok (p, w, [])
    else
      let sum : LvPoint := ⟨p.pointer.drag_sum.x + p.pointer.vect.x,
                            p.pointer.drag_sum.y + p.pointer.vect.y⟩
      let limit_out : Bool :=
        if p.pointer.drag_limit_out = false then
          lv_math_abs sum.x ≥ cfg.drag_limit || lv_math_abs sum.y ≥ cfg.drag_limit
        else p.pointer.drag_limit_out
      let p1 := { p with pointer := { p.pointer with drag_sum := sum, drag_limit_out := limit_out } }
      if limit_out then
        if p1.pointer.vect.x ≠ 0 || p1.pointer.vect.y ≠ 0 then
          let act_x := lv_obj_get_x w dObj
          let act_y := lv_obj_get_y w dObj
          let inv0 := w.invCount
          let prev_x := (coords_of w dObj).x1
          let prev_y := (coords_of w dObj).y1
          let prev_par_w := lv_obj_get_width w (lv_obj_get_parent w dObj)
          let prev_par_h := lv_obj_get_height w (lv_obj_get_parent w dObj)
          let w1 := lv_obj_set_pos w dObj (act_x + p1.pointer.vect.x) (act_y + p1.pointer.vect.y)
          if (coords_of w1 dObj).x1 ≠ prev_x || (coords_of w1 dObj).y1 ≠ prev_y then
            if p1.pointer.drag_in_prog then
              let p2 := cb_mark_reset w1 dObj p1
              if p2.reset_query then Except.ok (p2, w1, [Emit.signal dObj LvSignal.dragBegin])
              else Except.ok ({ p2 with pointer.drag_in_prog := true }, w1,
                              [Emit.signal dObj LvSignal.dragBegin])
            else Except.ok ({ p1 with pointer.drag_in_prog := true }, w1, [])
          else
            let act_par_w := lv_obj_get_width w1 (lv_obj_get_parent w1 dObj)
            let act_par_h := lv_obj_get_height w1 (lv_obj_get_parent w1 dObj)
            if act_par_w = prev_par_w && act_par_h = prev_par_h then
              Except.ok (p1, lv_disp_pop_from_inv_buf w1 (w1.invCount - inv0), [])
            else Except.ok (p1, w1, [])
        else Except.ok (p1, w, [])
      else Except.ok (p1, w, [])

/-- Throw engine, indev_drag_throw (lines 951-1009).  Decays the throw
vector by (100 - LV_INDEV_DRAG_THROW) / 100 with C truncating integer
division, moves the resolved target, and ends the drag when nothing moved
on an axis with a nonzero vector or when the vector reached zero. -/
def indev_drag_throw (cfg : LvConf) (w : World) (p : Proc) : Except Unit (Proc × World × List Emit) :=
  if p.pointer.drag_in_prog = false then Except.ok (p, w, [])
  else
    match drag_obj_walk w (walk_fuel w) p.pointer.last_obj with
    | Except.error e => Except.error e
    | Except.ok none => Except.ok (p, w, [])
    | Except.ok (some dObj) =>
      if lv_obj_get_drag_throw w dObj = false then
        let p1 := { p with pointer.drag_in_prog := false }
        Except.ok (cb_mark_reset w dObj p1, w, [Emit.signal dObj LvSignal.dragEnd])
      else
        let tvx := Int.tdiv (p.pointer.drag_throw_vect.x * (100 - cfg.drag_throw)) 100
        let tvy := Int.tdiv (p.pointer.drag_throw_vect.y * (100 - cfg.drag_throw)) 100
        let p1 := { p with pointer.drag_throw_vect := ⟨tvx, tvy⟩ }
        if tvx ≠ 0 || tvy ≠ 0 then
          let coords_ori := coords_of w dObj
          let act_x := lv_obj_get_x w dObj + tvx
          let act_y := lv_obj_get_y w dObj + tvy
          let w1 := lv_obj_set_pos w dObj act_x act_y
          let coord_new := coords_of w1 dObj
          if (coord_new.x1 = coords_ori.x1 || tvx = 0) && (coord_new.y1 = coords_ori.y1 || tvy = 0) then
            let pp : PointerState :=
              { p1.pointer with drag_in_prog := false, vect := ⟨0, 0⟩, drag_throw_vect := ⟨0, 0⟩ }
            let p2 := { p1 with pointer := pp }
            Except.ok (cb_mark_reset w1 dObj p2, w1, [Emit.signal dObj LvSignal.dragEnd])
          else Except.ok (p1, w1, [])
        else
          let p2 := { p1 with pointer.drag_in_prog := false }
          Except.ok (cb_mark_reset w dObj p2, w, [Emit.signal dObj LvSignal.dragEnd])

/-- Walk of the parent chain recording the outermost widget bearing the top
attribute (indev_proc_press lines 637-642). -/
def top_walk (w : World) : Nat → Option Nat → Option Nat → Option Nat
  | 0, _, acc => acc
  | Nat.succ f, none, acc => acc
  | Nat.succ f, some i, acc =>
    let acc2 := match obj_at w i with
      | some o => if o.top then some i else acc
      | none => acc
    top_walk w f (lv_obj_get_parent w i) acc2

/-- Modelled from the spec: lv_ll_chg_list moving a widget to the head of
its parent's child list (indev_proc_press lines 644-650), followed by
invalidation.  A top widget with no parent is left alone. -/
def move_to_foreground (w : World) (t : Nat) : World :=
  match lv_obj_get_parent w t with
  | none => w
  | some par =>
    match w.objs.get? par with
    | none => w
    | some po =>
      let w1 := { w with objs := w.objs.set par { po with children := t :: po.children.erase t } }
      lv_obj_invalidate w1 t

/-- Long-press-repeat block of the press path (lines 700-709). -/
def press_rep (cfg : LvConf) (now : Nat) (w : World) (p : Proc) (pr_obj : Option Nat)
    (tr : List Emit) : Except Unit (Proc × World × List Emit) :=
  if p.pointer.drag_in_prog = false && p.long_pr_sent = true then
    if lv_tick_elaps now p.longpr_rep_timestamp > cfg.long_press_rep_time then
      match pr_obj with
      | none => Except.error ()
      | some po =>
        let tr1 := tr ++ [Emit.signal po LvSignal.longPressRep,
                          Emit.event po (EvMsg.ev LvEvent.longPressedRepeat)]
        let p1 := cb_mark_reset w po p
        if p1.reset_query then Except.ok (p1, w, tr1)
        else Except.ok ({ p1 with longpr_rep_timestamp := now }, w, tr1)
    else Except.ok (p, w, tr)
  else Except.ok (p, w, tr)

/-- Vector update of the press path (lines 659-673): vect becomes the
sample delta and drag_throw_vect is low-passed (the C arithmetic right
shift by 3 of a signed value is floor division by 8), with a one-step nudge
toward zero. -/
def press_vect_update (p : Proc) : Proc :=
  let vect : LvPoint := ⟨p.pointer.act_point.x - p.pointer.last_point.x,
                         p.pointer.act_point.y - p.pointer.last_point.y⟩
  let tvx1 := Int.fdiv (p.pointer.drag_throw_vect.x * 5) 8
  let tvy1 := Int.fdiv (p.pointer.drag_throw_vect.y * 5) 8
  let tvx2 := if tvx1 < 0 then tvx1 + 1 else if tvx1 > 0 then tvx1 - 1 else tvx1
  let tvy2 := if tvy1 < 0 then tvy1 + 1 else if tvy1 > 0 then tvy1 - 1 else tvy1
  let tvx3 := tvx2 + Int.fdiv (vect.x * 4) 8
  let tvy3 := tvy2 + Int.fdiv (vect.y * 4) 8
  { p with pointer := { p.pointer with vect := vect, drag_throw_vect := ⟨tvx3, tvy3⟩ } }

/-- Continuation of the press path after the vector update (lines 676-711):
PRESSING delivery, the drag engine, then long press and long-press
repeat. -/
def press_tail2 (cfg : LvConf) (now : Nat) (w : World) (p1 : Proc) (pr_obj : Option Nat)
    (tr : List Emit) : Except Unit (Proc × World × List Emit) :=
  match p1.pointer.act_obj with
  | none => Except.ok (p1, w, tr)
  | some a =>
    let tr1 := tr ++ [Emit.signal a LvSignal.pressing, Emit.event a (EvMsg.ev LvEvent.pressing)]
    let p2 := cb_mark_reset w a p1
    if p2.reset_query then Except.ok (p2, w, tr1)
    else
      match indev_drag cfg w p2 with
      | Except.error e => Except.error e
      | Except.ok (p3, w1, trD) =>
        let tr2 := tr1 ++ trD
        if p3.reset_query then Except.ok (p3, w1, tr2)
        else
          if p3.pointer.drag_in_prog = false && p3.long_pr_sent = false then
            if lv_tick_elaps now p3.pr_timestamp > cfg.long_press_time then
              match pr_obj with
              | none => Except.error ()
              | some po =>
                let tr3 := tr2 ++ [Emit.signal po LvSignal.longPress,
                                   Emit.event po (EvMsg.ev LvEvent.longPressed)]
                let p4 := cb_mark_reset w1 po p3
                if p4.reset_query then Except.ok (p4, w1, tr3)
                else
                  let p5 := { p4 with long_pr_sent := true, longpr_rep_timestamp := now }
                  press_rep cfg now w1 p5 pr_obj tr3
            else press_rep cfg now w1 p3 pr_obj tr2
          else press_rep cfg now w1 p3 pr_obj tr2

/-- Tail of the press path (lines 659-711): the vector update followed by
its continuation. -/
def press_tail (cfg : LvConf) (now : Nat) (w : World) (p : Proc) (pr_obj : Option Nat)
    (tr : List Emit) : Except Unit (Proc × World × List Emit) :=
  press_tail2 cfg now w (press_vect_update p) pr_obj tr

/-- State reset on a fresh press (lines 624-634): press timer stamped,
long-press and drag state cleared. -/
def press_press_state (now : Nat) (p1 : Proc) : Proc :=
  let pp : PointerState :=
    { p1.pointer with drag_limit_out := false, drag_in_prog := false, drag_sum := ⟨0, 0⟩, vect := ⟨0, 0⟩ }
  { p1 with pr_timestamp := now, long_pr_sent := false, pointer := pp }

/-- Foreground move of the outermost top-attributed ancestor (lines
636-650). -/
def press_top_adjust (w : World) (a : Nat) : World :=
  match top_walk w (walk_fuel w) (some a) none with
  | some t => move_to_foreground w t
  | none => w

/-- Hit part of the new-object block (lines 624-656): foreground
adjustment, PRESSED delivery, then the shared tail. -/
def press_newobj_hit (cfg : LvConf) (now : Nat) (w : World) (p2 : Proc) (a : Nat)
    (pr_obj : Option Nat) (tr : List Emit) : Except Unit (Proc × World × List Emit) :=
  let w1 := press_top_adjust w a
  let tr1 := tr ++ [Emit.signal a LvSignal.pressed, Emit.event a (EvMsg.ev LvEvent.pressed)]
  let p3 := cb_mark_reset w1 a p2
  if p3.reset_query then Except.ok (p3, w1, tr1)
  else press_tail cfg now w1 p3 pr_obj tr1

/-- New-object block of the press path (lines 621-656): store the new
act_obj and last_obj; if a widget was hit, reset the press timers and drag
state, bring a top-attributed ancestor to the foreground, and deliver
PRESSED. -/
def press_newobj (cfg : LvConf) (now : Nat) (w : World) (p : Proc) (pr_obj : Option Nat)
    (tr : List Emit) : Except Unit (Proc × World × List Emit) :=
  let p1 := { p with pointer := { p.pointer with act_obj := pr_obj, last_obj := pr_obj } }
  match pr_obj with
  | none => press_tail cfg now w p1 pr_obj tr
  | some a => press_newobj_hit cfg now w (press_press_state now p1) a pr_obj tr

/-- Target election of the press path (lines 584-606): keep act_obj while a
drag is in progress or it is press-lost protected, otherwise re-run the
three-root hit test. -/
def press_target (w : World) (d : LvDisp) (p : Proc) : Option Nat :=
  if p.pointer.act_obj = none then indev_press_search w p.pointer.act_point d
  else if p.pointer.drag_in_prog = false && prot_press_lost w p.pointer.act_obj = false then
    indev_press_search w p.pointer.act_point d
  else p.pointer.act_obj

/-- Refresh of last_point on a change of pressed object (lines 611-612). -/
def press_save_last (p : Proc) : Proc :=
  { p with pointer.last_point := p.pointer.act_point }

/-- Press path, indev_proc_press (lines 582-711).  Returns unchanged while
wait_unil_release is set; re-hit-tests unless a drag is in progress or the
active widget is protected against press-lost; delivers PRESS_LOST and
PRESSED around a change of active widget; then runs the shared tail. -/
def indev_proc_press (cfg : LvConf) (now : Nat) (d : LvDisp) (w : World) (p : Proc) :
    Except Unit (Proc × World × List Emit) :=
  if p.pointer.wait_unil_release = true then Except.ok (p, w, [])
  else
    let pr_obj : Option Nat := press_target w d p
    if pr_obj = p.pointer.act_obj then press_tail cfg now w p pr_obj []
    else
      let pA := press_save_last p
      match pA.pointer.act_obj with
      | some oldO =>
        let tr := [Emit.signal oldO LvSignal.pressLost, Emit.event oldO (EvMsg.ev LvEvent.pressLost)]
        let p2 := cb_mark_reset w oldO pA
        if p2.reset_query then Except.ok (p2, w, tr)
        else press_newobj cfg now w p2 pr_obj tr
      | none => press_newobj cfg now w pA pr_obj []

/-- Click-focus parent walk of the release path (lines 776-784): climb
parents until one belongs to a group, stopping (with no candidate) at the
root or at a click-focus-protected ancestor. -/
def click_focus_walk (w : World) : Nat → Option Nat → Option Nat → Option Nat × Option Nat
  | 0, g, par => (g, par)
  | Nat.succ f, some g, par => (some g, par)
  | Nat.succ f, none, par =>
    match (match par with | some pi => lv_obj_get_parent w pi | none => none) with
    | none => (none, none)
    | some np =>
      if prot_click_focus w (some np) then (none, none)
      else click_focus_walk w f (lv_obj_get_group w np) (some np)

/-- Throw hand-off at the end of the release path (lines 801-804). -/
def release_throw (cfg : LvConf) (w : World) (p : Proc) (tr : List Emit) :
    Except Unit (Proc × World × List Emit) :=
  if p.pointer.last_obj.isSome && p.reset_query = false then
    match indev_drag_throw cfg w p with
    | Except.error e => Except.error e
    | Except.ok (q, w1, trT) => Except.ok (q, w1, tr ++ trT)
  else Except.ok (p, w, tr)

/-- Released-widget body of the release path (lines 728-797).  In the
press-lost-protected case the hit test is rerun from act_obj itself; the
widget gets RELEASED (or PRESS_LOST when the point left it).  On the event
channel the source passes LV_EVENT_CLICKED when neither long press nor drag
happened, LV_EVENT_RELEASED in the protected on-widget branch, but the
signal constants LV_SIGNAL_PRESS_LOST (line 746) and LV_SIGNAL_RELEASED
(line 757) in the other two branches; the transcription keeps those
operands.  Then click focus is handled and act_obj and the press timers are
cleared. -/
def release_act (cfg : LvConf) (w : World) (p : Proc) (a : Nat) :
    Except Unit (Proc × World × List Emit) :=
  let tr : List Emit :=
    if prot_press_lost w (some a) then
      let obj_on := indev_search_obj w p.pointer.act_point (search_fuel w) a
      if obj_on = some a then
        [Emit.signal a LvSignal.released] ++
          (if p.long_pr_sent = false && p.pointer.drag_in_prog = false then
            [Emit.event a (EvMsg.ev LvEvent.clicked)]
          else [Emit.event a (EvMsg.ev LvEvent.released)])
      else [Emit.signal a LvSignal.pressLost, Emit.event a (EvMsg.sig LvSignal.pressLost)]
    else
      [Emit.signal a LvSignal.released] ++
        (if p.long_pr_sent = false && p.pointer.drag_in_prog = false then
          [Emit.event a (EvMsg.ev LvEvent.clicked)]
        else [Emit.event a (EvMsg.sig LvSignal.released)])
  let p1 := cb_mark_reset w a p
  if p1.reset_query then Except.ok (p1, w, tr)
  else
    let act_g := lv_obj_get_group w a
    let w1 := if lv_group_get_editing w act_g then lv_group_set_editing w act_g false else w
    let trE : List Emit :=
      if lv_group_get_editing w act_g then [Emit.groupSetEditing false] else []
    let trF : List Emit :=
      if prot_click_focus w (some a) = false then
        match click_focus_walk w (walk_fuel w) (lv_obj_get_group w a) (some a) with
        | (some gi, some par) =>
          if lv_group_get_click_focus w1 gi then [Emit.groupFocusObj par] else []
        | _ => []
      else []
    if p1.reset_query then Except.ok (p1, w1, tr ++ trE ++ trF)
    else
      let p2 := { p1 with pointer.act_obj := none, pr_timestamp := 0, longpr_rep_timestamp := 0 }
      release_throw cfg w1 p2 (tr ++ trE ++ trF)

/-- Release path, indev_proc_release (lines 717-805).  A pending
wait_unil_release clears the active references, the press timers and the
flag itself; then the released widget (if any) is handled and the throw
engine is entered when last_obj survived. -/
def indev_proc_release (cfg : LvConf) (w : World) (p : Proc) :
    Except Unit (Proc × World × List Emit) :=
  let pw : PointerState :=
    { p.pointer with act_obj := none, last_obj := none, wait_unil_release := false }
  let p0 :=
    if p.pointer.wait_unil_release then
      { p with pointer := pw, pr_timestamp := 0, longpr_rep_timestamp := 0 }
    else p
  match p0.pointer.act_obj with
  | some a => release_act cfg w p0 a
  | none => release_throw cfg w p0 []

/-- Shared finish of the keypad and encoder release edges (lines 441-444
and 538-541): a pending reset query returns before the timers are cleared
and before last_state / last_key are stored. -/
def kp_rel_fin (w : World) (p : Proc) (st : IndevState) (key : Nat) (tr : List Emit) :
    Except Unit (Proc × World × List Emit) :=
  if p.reset_query then Except.ok (p, w, tr)
  else Except.ok ({ p with pr_timestamp := 0, long_pr_sent := false, keypad := ⟨st, key⟩ }, w, tr)

/-- Keypad state machine, indev_keypad_proc (lines 384-453).  Requires a
focus group.  On the release edge the key is first restored from last_key
(line 420) before any dispatch; ENTER then yields RELEASED plus CLICKED to
the focused widget unless a long press was already sent.  The source
dereferences the focused widget without a NULL check on that branch (line
434), which is the error value here. -/
def indev_keypad_proc (cfg : LvConf) (now : Nat) (grp : Option Nat) (w : World) (p : Proc)
    (data : IndevData) : Except Unit (Proc × World × List Emit) :=
  match grp with
  | none => Except.ok (p, w, [])
  | some gid =>
    let focused := lv_group_get_focused w gid
    if data.state = IndevState.pr && p.keypad.last_state = IndevState.rel then
      let p1 := { p with pr_timestamp := now }
      match focused with
      | some f =>
        if data.key = LV_GROUP_KEY_ENTER then
          Except.ok ({ cb_mark_reset w f p1 with keypad := ⟨data.state, data.key⟩ }, w,
                     [Emit.signal f LvSignal.pressed, Emit.event f (EvMsg.ev LvEvent.pressed)])
        else Except.ok ({ p1 with keypad := ⟨data.state, data.key⟩ }, w, [])
      | none => Except.ok ({ p1 with keypad := ⟨data.state, data.key⟩ }, w, [])
    else if data.state = IndevState.pr && p.keypad.last_state = IndevState.pr then
      if data.key = LV_GROUP_KEY_ENTER && p.long_pr_sent = false
          && lv_tick_elaps now p.pr_timestamp > cfg.long_press_time then
        match focused with
        | some f =>
          let pL := { cb_mark_reset w f p with long_pr_sent := true, keypad := ⟨data.state, data.key⟩ }
          Except.ok (pL, w,
                     [Emit.signal f LvSignal.longPress, Emit.event f (EvMsg.ev LvEvent.longPressed)])
        | none => Except.ok ({ p with keypad := ⟨data.state, data.key⟩ }, w, [])
      else Except.ok ({ p with keypad := ⟨data.state, data.key⟩ }, w, [])
    else if data.state = IndevState.rel && p.keypad.last_state = IndevState.pr then
      let key := p.keypad.last_key
      if key = LV_GROUP_KEY_NEXT then
        kp_rel_fin (lv_group_set_editing w (some gid) false) p data.state key
          [Emit.groupSetEditing false, Emit.groupFocusNext]
      else if key = LV_GROUP_KEY_PREV then
        kp_rel_fin (lv_group_set_editing w (some gid) false) p data.state key
          [Emit.groupSetEditing false, Emit.groupFocusPrev]
      else if key = LV_GROUP_KEY_ENTER then
        if p.long_pr_sent = false then
          match focused with
          | none => Except.error ()
          | some f =>
            kp_rel_fin w (cb_mark_reset w f p) data.state key
              [Emit.signal f LvSignal.released, Emit.event f (EvMsg.ev LvEvent.clicked)]
        else kp_rel_fin w p data.state key []
      else kp_rel_fin w p data.state key [Emit.groupSendData key]
    else Except.ok ({ p with keypad := ⟨data.state, data.key⟩ }, w, [])

/-- Step processing of the encoder (lines 467-487): valid only with a
released button; abs(enc_diff) sends of LEFT or RIGHT in edit mode,
abs(enc_diff) focus moves in navigate mode. -/
def enc_steps (w : World) (gid : Nat) (data : IndevData) : List Emit :=
  if data.state = IndevState.rel then
    if lv_group_get_editing w (some gid) then
      if data.enc_diff < 0 then
        List.replicate (-data.enc_diff).toNat (Emit.groupSendData LV_GROUP_KEY_LEFT)
      else if data.enc_diff > 0 then
        List.replicate data.enc_diff.toNat (Emit.groupSendData LV_GROUP_KEY_RIGHT)
      else []
    else
      if data.enc_diff < 0 then
        List.replicate (-data.enc_diff).toNat Emit.groupFocusPrev
      else if data.enc_diff > 0 then
        List.replicate data.enc_diff.toNat Emit.groupFocusNext
      else []
  else []

/-- Encoder state machine, indev_encoder_proc (lines 460-550).  Steps are
processed first and only with a released button; the three press edges
mirror the keypad with ENTER replaced by the editability query. -/
def indev_encoder_proc (cfg : LvConf) (now : Nat) (grp : Option Nat) (w : World) (p : Proc)
    (data : IndevData) : Except Unit (Proc × World × List Emit) :=
  match grp with
  | none => Except.ok (p, w, [])
  | some gid =>
    let stepsTr : List Emit := enc_steps w gid data
    if data.state = IndevState.pr && p.keypad.last_state = IndevState.rel then
      Except.ok ({ p with pr_timestamp := now, keypad := ⟨data.state, data.key⟩ }, w, stepsTr)
    else if data.state = IndevState.pr && p.keypad.last_state = IndevState.pr then
      if p.long_pr_sent = false && lv_tick_elaps now p.pr_timestamp > cfg.long_press_time then
        let focused := lv_group_get_focused w gid
        let editable : Bool := match focused with
          | some f => (match obj_at w f with | some o => o.editable | none => false)
          | none => false
        let trQ : List Emit := match focused with
          | some f => [Emit.signal f LvSignal.getEditable]
          | none => []
        let pE : Proc := match focused with
          | some f => cb_mark_reset w f p
          | none => p
        if editable then
          if lv_group_head_eq_tail w gid = false then
            let newEd := if lv_group_get_editing w (some gid) then false else true
            Except.ok ({ pE with long_pr_sent := true, keypad := ⟨data.state, data.key⟩ },
                       lv_group_set_editing w (some gid) newEd,
                       stepsTr ++ trQ ++ [Emit.groupSetEditing newEd])
          else
            match focused with
            | some f =>
              let pL := { cb_mark_reset w f pE with long_pr_sent := true, keypad := ⟨data.state, data.key⟩ }
              Except.ok (pL, w, stepsTr ++ trQ ++ [Emit.signal f LvSignal.longPress])
            | none =>
              Except.ok ({ pE with long_pr_sent := true, keypad := ⟨data.state, data.key⟩ },
                         w, stepsTr ++ trQ)
        else
          match focused with
          | some f =>
            let pL := { cb_mark_reset w f pE with long_pr_sent := true, keypad := ⟨data.state, data.key⟩ }
            Except.ok (pL, w, stepsTr ++ trQ ++ [Emit.signal f LvSignal.longPress])
          | none =>
            Except.ok ({ pE with long_pr_sent := true, keypad := ⟨data.state, data.key⟩ },
                       w, stepsTr ++ trQ)
      else Except.ok ({ p with keypad := ⟨data.state, data.key⟩ }, w, stepsTr)
    else if data.state = IndevState.rel && p.keypad.last_state = IndevState.pr then
      let focused := lv_group_get_focused w gid
      let editable : Bool := match focused with
        | some f => (match obj_at w f with | some o => o.editable | none => false)
        | none => false
      let trQ : List Emit := match focused with
        | some f => [Emit.signal f LvSignal.getEditable]
        | none => []
      let pE : Proc := match focused with
        | some f => cb_mark_reset w f p
        | none => p
      if editable = false then
        kp_rel_fin w pE data.state data.key
          (stepsTr ++ trQ ++ [Emit.groupSendData LV_GROUP_KEY_ENTER])
      else if lv_group_get_editing w (some gid) then
        if pE.long_pr_sent = false || lv_group_head_eq_tail w gid then
          kp_rel_fin w pE data.state data.key
            (stepsTr ++ trQ ++ [Emit.groupSendData LV_GROUP_KEY_ENTER])
        else kp_rel_fin w pE data.state data.key (stepsTr ++ trQ)
      else if editable && lv_group_get_editing w (some gid) = false
          && pE.long_pr_sent = false then
        let newEd := if lv_group_get_editing w (some gid) then false else true
        kp_rel_fin (lv_group_set_editing w (some gid) newEd) pE data.state data.key
          (stepsTr ++ trQ ++ [Emit.groupSetEditing newEd])
      else kp_rel_fin w pE data.state data.key (stepsTr ++ trQ)
    else Except.ok ({ p with keypad := ⟨data.state, data.key⟩ }, w, stepsTr)

/-- Button-array adapter, indev_button_proc (lines 558-576).  The sample's
button id is resolved through the configured button-to-point table into
act_point; the press path runs only when the resolved point equals
last_point and the state is pressed, any other sample runs the release
path; then last_point is refreshed.  An out-of-range button id indexes past
the table in C, the error value here. -/
def indev_button_proc (cfg : LvConf) (now : Nat) (d : LvDisp) (btn_points : List LvPoint)
    (w : World) (p : Proc) (data : IndevData) : Except Unit (Proc × World × List Emit) :=
  match btn_points.get? data.btn_id with
  | none => Except.error ()
  | some pt =>
    let p1 := { p with pointer.act_point := pt }
    match (if p1.pointer.last_point = p1.pointer.act_point && data.state = IndevState.pr then
            indev_proc_press cfg now d w p1
          else indev_proc_release cfg w p1) with
    | Except.error e => Except.error e
    | Except.ok (q, w1, tr) =>
      Except.ok ({ q with pointer.last_point := q.pointer.act_point }, w1, tr)

/-- Reset-query handler, indev_proc_reset_query_handler (lines 814-830):
clears the pointer references, the drag state and the timers, then drops
the query.  Note that act_point, last_point, vect, the key-family state and
wait_unil_release are left alone, as in the source. -/
def indev_proc_reset_query_handler (p : Proc) : Proc :=
  if p.reset_query then
    let pw : PointerState :=
      { p.pointer with act_obj := none, last_obj := none, drag_limit_out := false, drag_in_prog := false, drag_sum := ⟨0, 0⟩, drag_throw_vect := ⟨0, 0⟩ }
    { p with pointer := pw, long_pr_sent := false, pr_timestamp := 0, longpr_rep_timestamp := 0, reset_query := false }
  else p

/-- The operations of the pointer-family core, for statements quantifying
over all of them. -/
inductive CoreOp where
  | press
  | release
  | drag
  | throwStep
  | resetQ
deriving Repr, DecidableEq

/-- Run one pointer-family operation. -/
def run_op (op : CoreOp) (cfg : LvConf) (now : Nat) (d : LvDisp) (w : World) (p : Proc) :
    Except Unit (Proc × World × List Emit) :=
  match op with
  | CoreOp.press => indev_proc_press cfg now d w p
  | CoreOp.release => indev_proc_release cfg w p
  | CoreOp.drag => indev_drag cfg w p
  | CoreOp.throwStep => indev_drag_throw cfg w p
  | CoreOp.resetQ => Except.ok (indev_proc_reset_query_handler p, w, [])

/-- Projection of the resulting processing state of an operation. -/
def res_proc (r : Except Unit (Proc × World × List Emit)) : Option Proc :=
  match r with
  | Except.ok (q, _, _) => some q
  | Except.error _ => none

/-- Projection of the resulting world of an operation. -/
def res_world (r : Except Unit (Proc × World × List Emit)) : Option World :=
  match r with
  | Except.ok (_, w, _) => some w
  | Except.error _ => none

/-- Projection of the emission trace of an operation. -/
def res_trace (r : Except Unit (Proc × World × List Emit)) : Option (List Emit) :=
  match r with
  | Except.ok (_, _, tr) => some tr
  | Except.error _ => none

/-- A plain clickable, draggable, throwable, movable widget with no parent
and no children, used as concrete input by several checks. -/
def fix_obj : ObjRec :=
  { parent := none, children := [], coords := ⟨0, 0, 10, 10⟩, click := true, hidden := false,
    top := false, drag := true, dragThrow := true, dragParent := false, protPressLost := false,
    protClickFocus := false, movable := true, editable := false, cbReset := false, group := none }

/-- A world holding just fix_obj as widget 0. -/
def fix_w : World := { objs := [fix_obj], groups := [], invCount := 0 }

/-- Default-like configuration: drag limit 10, throw 10 percent, long press
400 ms with 100 ms repeat. -/
def fix_cfg : LvConf :=
  { drag_limit := 10, drag_throw := 10, long_press_time := 400, long_press_rep_time := 100 }

/-- A pressed-sample processing state on widget 0 that is past the
dead-zone (drag_sum has accumulated 20), with a nonzero vector and no drag
begun yet: the next drag step is the first that moves the widget. -/
def c1_p : Proc :=
  { pointer := { act_point := ⟨5, 0⟩, last_point := ⟨0, 0⟩, act_obj := some 0, last_obj := some 0,
                 vect := ⟨5, 0⟩, drag_sum := ⟨20, 0⟩, drag_throw_vect := ⟨0, 0⟩,
                 drag_limit_out := true, drag_in_prog := false, wait_unil_release := false },
    keypad := { last_state := IndevState.rel, last_key := 0 },
    pr_timestamp := 0, longpr_rep_timestamp := 0, long_pr_sent := false,
    reset_query := false, disabled := false }

/-- First drag step from c1_p: the widget moves from x 0 to x 5. -/
def c1_step1 : Except Unit (Proc × World × List Emit) := indev_drag fix_cfg fix_w c1_p

/-- State after the first moving step. -/
def c1_p2 : Proc := (res_proc c1_step1).getD c1_p

/-- World after the first moving step. -/
def c1_w2 : World := (res_world c1_step1).getD fix_w

/-- Second drag step, with the same nonzero vector. -/
def c1_step2 : Except Unit (Proc × World × List Emit) := indev_drag fix_cfg c1_w2 c1_p2

/-- C1: the claim says drag-begin is emitted on the first sample that
actually changes the target's coordinates, and that drag_in_prog is true
only between drag-begin and drag-end.  The code does the opposite: on the
first moving sample (widget 0 moves from x 0 to x 5) no DRAG_BEGIN is
emitted although drag_in_prog becomes true, and the second moving sample
emits DRAG_BEGIN (the test at line 924 reads drag_in_prog != 0 where its
own comment says the signal belongs to the first move).  So drag_in_prog is
true strictly before any drag-begin, refuting the claim at this input. -/
theorem C1_drag_begin_not_on_first_move :
    res_trace c1_step1 = some [] ∧
    (res_proc c1_step1).map (fun q => q.pointer.drag_in_prog) = some true ∧
    (res_world c1_step1).map (fun w => coords_of w 0) = some ⟨5, 0, 15, 10⟩ ∧
    res_trace c1_step2 = some [Emit.signal 0 LvSignal.dragBegin] := by
  decide

/-- A release-sample processing state: widget 0 is the active object, a
long press was already delivered (so clicked must be suppressed), no drag
is in progress, and no throw will run (last_obj is gone). -/
def c2_p : Proc :=
  { pointer := { act_point := ⟨5, 5⟩, last_point := ⟨5, 5⟩, act_obj := some 0, last_obj := none,
                 vect := ⟨0, 0⟩, drag_sum := ⟨0, 0⟩, drag_throw_vect := ⟨0, 0⟩,
                 drag_limit_out := false, drag_in_prog := false, wait_unil_release := false },
    keypad := { last_state := IndevState.rel, last_key := 0 },
    pr_timestamp := 35, longpr_rep_timestamp := 40, long_pr_sent := true,
    reset_query := false, disabled := false }

/-- The same state before any long press: the release must yield clicked. -/
def c2_p_nolpr : Proc := { c2_p with long_pr_sent := false }

/-- Expected state after the release: active object and press timers
cleared. -/
def c2_q : Proc := { c2_p with pointer.act_obj := none, pr_timestamp := 0, longpr_rep_timestamp := 0 }

/-- Expected state after the release of the no-long-press variant. -/
def c2_q_nolpr : Proc :=
  { c2_p_nolpr with pointer.act_obj := none, pr_timestamp := 0, longpr_rep_timestamp := 0 }

/-- C2: the release path does emit the RELEASED signal, and emits CLICKED
exactly when neither long press nor drag occurred; but in the other branch
the value passed on the event channel is the signal constant
LV_SIGNAL_RELEASED (line 757), not the event LV_EVENT_RELEASED the claim
and the spec require.  At this concrete release sample (long press already
sent) the event channel carries the signal enum; the control variant with
no long press shows the clicked side behaving as claimed. -/
theorem C2_release_event_is_signal_enum :
    indev_proc_release fix_cfg fix_w c2_p =
      Except.ok (c2_q, fix_w,
        [Emit.signal 0 LvSignal.released, Emit.event 0 (EvMsg.sig LvSignal.released)]) ∧
    indev_proc_release fix_cfg fix_w c2_p_nolpr =
      Except.ok (c2_q_nolpr, fix_w,
        [Emit.signal 0 LvSignal.released, Emit.event 0 (EvMsg.ev LvEvent.clicked)]) := by
  decide

/-- A world whose only widget has the drag-parent attribute set, so the
drag-parent walk runs off the root of the parent chain. -/
def c10_w : World :=
  { objs := [{ fix_obj with dragParent := true }], groups := [], invCount := 0 }

/-- A throw-phase state on the same widget. -/
def c10_p_throw : Proc := { c1_p with pointer.drag_in_prog := true }

/-- C10: the claim says the drag-parent lookup is applied only to a present
widget.  The loop condition at lines 881-882 and 959-960 evaluates
lv_obj_get_drag_parent(drag_obj) before testing drag_obj against NULL, so
when every widget on the chain from act_obj (here: the root itself) has
drag-parent set, the walk steps past the root and queries the attribute on
a NULL object; both the drag engine and the throw engine reach that
dereference. -/
theorem C10_drag_parent_walk_hits_none :
    drag_obj_walk c10_w (walk_fuel c10_w) (some 0) = Except.error () ∧
    indev_drag fix_cfg c10_w c1_p = Except.error () ∧
    indev_drag_throw fix_cfg c10_w c10_p_throw = Except.error () := by
  decide

/-- C5: each throw tick multiplies each component of drag_throw_vect by
(100 - LV_INDEV_DRAG_THROW) and divides by 100 with C truncating division
(lines 976-977); with DRAG_THROW = 100 the multiplier is zero, both
components become zero on the first tick, and the throw terminates in that
step: drag_in_prog is cleared and DRAG_END is emitted (lines 1004-1007). -/
theorem C5_throw_decay_one_step
    (cfg : LvConf) (w : World) (p : Proc) (i : Nat)
    (h100 : cfg.drag_throw = 100)
    (hprog : p.pointer.drag_in_prog = true)
    (hwalk : drag_obj_walk w (walk_fuel w) p.pointer.last_obj = Except.ok (some i))
    (hthrow : lv_obj_get_drag_throw w i = true) :
    Int.tdiv (p.pointer.drag_throw_vect.x * (100 - cfg.drag_throw)) 100 = 0 ∧
    Int.tdiv (p.pointer.drag_throw_vect.y * (100 - cfg.drag_throw)) 100 = 0 ∧
    indev_drag_throw cfg w p =
      Except.ok (cb_mark_reset w i
          { p with pointer := { p.pointer with drag_throw_vect := ⟨0, 0⟩, drag_in_prog := false } },
        w, [Emit.signal i LvSignal.dragEnd]) := by
  have hx : Int.tdiv (p.pointer.drag_throw_vect.x * (100 - cfg.drag_throw)) 100 = 0 := by
    rw [h100]; simp
  have hy : Int.tdiv (p.pointer.drag_throw_vect.y * (100 - cfg.drag_throw)) 100 = 0 := by
    rw [h100]; simp
  refine ⟨hx, hy, ?_⟩
  unfold indev_drag_throw
  rw [hprog, hwalk]
  simp only [hthrow, hx, hy]
  rfl

/-- Configuration with the throw percentage at its maximum. -/
def fix_cfg100 : LvConf := { fix_cfg with drag_throw := 100 }

/-- A throw-phase state on widget 0 with a nonzero throw vector. -/
def c5_p : Proc :=
  { c1_p with pointer := { c1_p.pointer with drag_in_prog := true, drag_throw_vect := ⟨7, -3⟩ } }

/-- Witness for C5 at a concrete throw state with vector (7, -3). -/
theorem C5_throw_decay_one_step_witness :
    fix_cfg100.drag_throw = 100 ∧
    c5_p.pointer.drag_in_prog = true ∧
    drag_obj_walk fix_w (walk_fuel fix_w) c5_p.pointer.last_obj = Except.ok (some 0) ∧
    lv_obj_get_drag_throw fix_w 0 = true ∧
    (Int.tdiv (c5_p.pointer.drag_throw_vect.x * (100 - fix_cfg100.drag_throw)) 100 = 0 ∧
     Int.tdiv (c5_p.pointer.drag_throw_vect.y * (100 - fix_cfg100.drag_throw)) 100 = 0 ∧
     indev_drag_throw fix_cfg100 fix_w c5_p =
       Except.ok (cb_mark_reset fix_w 0
           { c5_p with pointer := { c5_p.pointer with drag_throw_vect := ⟨0, 0⟩, drag_in_prog := false } },
         fix_w, [Emit.signal 0 LvSignal.dragEnd])) :=
  ⟨by decide, by decide, by decide, by decide,
   C5_throw_decay_one_step fix_cfg100 fix_w c5_p 0 (by decide) (by decide) (by decide) (by decide)⟩

/-- The drag-limit invariant of the spec: a drag in progress implies the
dead-zone has been crossed. -/
def DragInv (p : Proc) : Prop :=
  p.pointer.drag_in_prog = true → p.pointer.drag_limit_out = true

lemma indev_drag_frame (cfg : LvConf) (w : World) (p q : Proc) (w1 : World) (tr : List Emit)
    (h : indev_drag cfg w p = Except.ok (q, w1, tr)) :
    q.pointer.wait_unil_release = p.pointer.wait_unil_release ∧ (DragInv p → DragInv q) := by
  unfold indev_drag at h
  cases hwalk : drag_obj_walk w (walk_fuel w) p.pointer.act_obj with
  | error e =>
    rw [hwalk] at h
    exact absurd h (by simp)
  | ok o =>
    rw [hwalk] at h
    cases o with
    | none =>
      simp only [Except.ok.injEq, Prod.mk.injEq] at h
      obtain ⟨hq, -, -⟩ := h
      subst hq
      exact ⟨rfl, id⟩
    | some dObj =>
      simp only [Bool.or_eq_true, Bool.and_eq_true, decide_eq_true_eq, ne_eq] at h
      repeat' split at h
      all_goals simp only [Except.ok.injEq, Except.error.injEq, Prod.mk.injEq, reduceCtorEq] at h
      all_goals obtain ⟨hq, -, -⟩ := h
      all_goals subst hq
      all_goals constructor
      all_goals simp_all [DragInv, cb_mark_reset]
      all_goals split <;> simp_all

lemma indev_drag_throw_frame (cfg : LvConf) (w : World) (p q : Proc) (w1 : World) (tr : List Emit)
    (h : indev_drag_throw cfg w p = Except.ok (q, w1, tr)) :
    q.pointer.wait_unil_release = p.pointer.wait_unil_release ∧ (DragInv p → DragInv q) := by
  unfold indev_drag_throw at h
  by_cases hprog : p.pointer.drag_in_prog = false
  · simp only [hprog, if_true, Except.ok.injEq, Prod.mk.injEq] at h
    obtain ⟨hq, -, -⟩ := h
    subst hq
    exact ⟨rfl, id⟩
  · simp only [hprog, if_false] at h
    cases hwalk : drag_obj_walk w (walk_fuel w) p.pointer.last_obj with
    | error e =>
      rw [hwalk] at h
      exact absurd h (by simp)
    | ok o =>
      rw [hwalk] at h
      cases o with
      | none =>
        simp only [ite_self, Except.ok.injEq, Prod.mk.injEq] at h
        obtain ⟨hq, -, -⟩ := h
        subst hq
        exact ⟨rfl, id⟩
      | some dObj =>
        simp only [Bool.or_eq_true, Bool.and_eq_true, decide_eq_true_eq, ne_eq] at h
        repeat' split at h
        all_goals simp only [Except.ok.injEq, Except.error.injEq, Prod.mk.injEq, reduceCtorEq] at h
        all_goals obtain ⟨hq, -, -⟩ := h
        all_goals subst hq
        all_goals constructor
        all_goals simp_all [DragInv, cb_mark_reset]
        all_goals split <;> simp_all

lemma cb_mark_reset_pointer (w : World) (i : Nat) (p : Proc) :
    (cb_mark_reset w i p).pointer = p.pointer := by
  unfold cb_mark_reset
  split <;> rfl

lemma dragInv_of_pointer_eq {p q : Proc} (h : q.pointer = p.pointer) : DragInv p → DragInv q := by
  intro hi
  unfold DragInv at *
  rw [h]
  exact hi

lemma dragInv_of_flags {p q : Proc}
    (h1 : q.pointer.drag_in_prog = p.pointer.drag_in_prog)
    (h2 : q.pointer.drag_limit_out = p.pointer.drag_limit_out) : DragInv p → DragInv q := by
  intro hi hq
  rw [h2]
  exact hi (h1 ▸ hq)

lemma frame_chain {p pa pb q : Proc}
    (h1 : pa.pointer = p.pointer)
    (hF : pb.pointer.wait_unil_release = pa.pointer.wait_unil_release ∧ (DragInv pa → DragInv pb))
    (h2 : q.pointer = pb.pointer) :
    q.pointer.wait_unil_release = p.pointer.wait_unil_release ∧ (DragInv p → DragInv q) := by
  constructor
  · rw [h2, hF.1, congrArg PointerState.wait_unil_release h1]
  · intro hi
    exact dragInv_of_pointer_eq h2 (hF.2 (dragInv_of_pointer_eq h1 hi))

lemma frame_step {p r q : Proc}
    (h1 : r.pointer.wait_unil_release = p.pointer.wait_unil_release ∧ (DragInv p → DragInv r))
    (h2 : q.pointer.wait_unil_release = r.pointer.wait_unil_release ∧ (DragInv r → DragInv q)) :
    q.pointer.wait_unil_release = p.pointer.wait_unil_release ∧ (DragInv p → DragInv q) :=
  ⟨h2.1.trans h1.1, fun hi => h2.2 (h1.2 hi)⟩

lemma press_rep_frame (cfg : LvConf) (now : Nat) (w : World) (p : Proc) (pr_obj : Option Nat)
    (tr : List Emit) (q : Proc) (w1 : World) (tr1 : List Emit)
    (h : press_rep cfg now w p pr_obj tr = Except.ok (q, w1, tr1)) : q.pointer = p.pointer := by
  unfold press_rep at h
  by_cases h1 : (p.pointer.drag_in_prog = false && p.long_pr_sent = true) = true
  · rw [if_pos h1] at h
    by_cases h2 : lv_tick_elaps now p.longpr_rep_timestamp > cfg.long_press_rep_time
    · rw [if_pos h2] at h
      cases pr_obj with
      | none => exact absurd h (by simp)
      | some po =>
        simp only at h
        by_cases h3 : (cb_mark_reset w po p).reset_query = true
        · rw [if_pos h3] at h
          simp only [Except.ok.injEq, Prod.mk.injEq] at h
          obtain ⟨hq, -, -⟩ := h
          subst hq
          exact cb_mark_reset_pointer w po p
        · rw [if_neg h3] at h
          simp only [Except.ok.injEq, Prod.mk.injEq] at h
          obtain ⟨hq, -, -⟩ := h
          subst hq
          simp [cb_mark_reset_pointer]
    · rw [if_neg h2] at h
      simp only [Except.ok.injEq, Prod.mk.injEq] at h
      obtain ⟨hq, -, -⟩ := h
      subst hq
      rfl
  · rw [if_neg h1] at h
    simp only [Except.ok.injEq, Prod.mk.injEq] at h
    obtain ⟨hq, -, -⟩ := h
    subst hq
    rfl

lemma press_tail2_frame (cfg : LvConf) (now : Nat) (w : World) (p : Proc) (pr_obj : Option Nat)
    (tr : List Emit) (q : Proc) (w1 : World) (tr1 : List Emit)
    (h : press_tail2 cfg now w p pr_obj tr = Except.ok (q, w1, tr1)) :
    q.pointer.wait_unil_release = p.pointer.wait_unil_release ∧ (DragInv p → DragInv q) := by
  unfold press_tail2 at h
  cases hao : p.pointer.act_obj with
  | none =>
    rw [hao] at h
    simp only [Except.ok.injEq, Prod.mk.injEq] at h
    obtain ⟨hq, -, -⟩ := h
    subst hq
    exact ⟨rfl, id⟩
  | some a =>
    rw [hao] at h
    by_cases hrq : (cb_mark_reset w a p).reset_query = true
    · simp only at h
      rw [if_pos hrq] at h
      simp only [Except.ok.injEq, Prod.mk.injEq] at h
      obtain ⟨hq, -, -⟩ := h
      subst hq
      exact ⟨congrArg PointerState.wait_unil_release (cb_mark_reset_pointer w a p),
             dragInv_of_pointer_eq (cb_mark_reset_pointer w a p)⟩
    · simp only at h
      rw [if_neg hrq] at h
      cases hD : indev_drag cfg w (cb_mark_reset w a p) with
      | error e =>
        rw [hD] at h
        exact absurd h (by simp)
      | ok r =>
        obtain ⟨p3, w2, trD⟩ := r
        rw [hD] at h
        have hF := indev_drag_frame cfg w (cb_mark_reset w a p) p3 w2 trD hD
        simp only at h
        by_cases hr3 : p3.reset_query = true
        · rw [if_pos hr3] at h
          simp only [Except.ok.injEq, Prod.mk.injEq] at h
          obtain ⟨hq, -, -⟩ := h
          have h2 : q.pointer = p3.pointer := by rw [← hq]
          exact frame_chain (cb_mark_reset_pointer w a p) hF h2
        · rw [if_neg hr3] at h
          by_cases h4 : (p3.pointer.drag_in_prog = false && p3.long_pr_sent = false) = true
          · rw [if_pos h4] at h
            by_cases h5 : lv_tick_elaps now p3.pr_timestamp > cfg.long_press_time
            · rw [if_pos h5] at h
              cases pr_obj with
              | none => exact absurd h (by simp)
              | some po =>
                simp only at h
                by_cases h6 : (cb_mark_reset w2 po p3).reset_query = true
                · rw [if_pos h6] at h
                  simp only [Except.ok.injEq, Prod.mk.injEq] at h
                  obtain ⟨hq, -, -⟩ := h
                  have h2 : q.pointer = p3.pointer := by
                    rw [← hq]
                    simp [cb_mark_reset_pointer]
                  exact frame_chain (cb_mark_reset_pointer w a p) hF h2
                · rw [if_neg h6] at h
                  have hrep := press_rep_frame _ _ _ _ _ _ _ _ _ h
                  have h2 : q.pointer = p3.pointer := by
                    rw [hrep]
                    simp [cb_mark_reset_pointer]
                  exact frame_chain (cb_mark_reset_pointer w a p) hF h2
            · rw [if_neg h5] at h
              have hrep := press_rep_frame _ _ _ _ _ _ _ _ _ h
              exact frame_chain (cb_mark_reset_pointer w a p) hF hrep
          · rw [if_neg h4] at h
            have hrep := press_rep_frame _ _ _ _ _ _ _ _ _ h
            exact frame_chain (cb_mark_reset_pointer w a p) hF hrep

lemma press_tail_frame (cfg : LvConf) (now : Nat) (w : World) (p : Proc) (pr_obj : Option Nat)
    (tr : List Emit) (q : Proc) (w1 : World) (tr1 : List Emit)
    (h : press_tail cfg now w p pr_obj tr = Except.ok (q, w1, tr1)) :
    q.pointer.wait_unil_release = p.pointer.wait_unil_release ∧ (DragInv p → DragInv q) := by
  unfold press_tail at h
  have hF := press_tail2_frame _ _ _ _ _ _ _ _ _ h
  exact frame_step (p := p) (r := press_vect_update p) ⟨rfl, fun hi => hi⟩ hF

lemma press_newobj_hit_frame (cfg : LvConf) (now : Nat) (w : World) (p2 : Proc) (a : Nat)
    (pr_obj : Option Nat) (tr : List Emit) (q : Proc) (w1 : World) (tr1 : List Emit)
    (h : press_newobj_hit cfg now w p2 a pr_obj tr = Except.ok (q, w1, tr1)) :
    q.pointer.wait_unil_release = p2.pointer.wait_unil_release ∧ (DragInv p2 → DragInv q) := by
  unfold press_newobj_hit at h
  by_cases h3 : (cb_mark_reset (press_top_adjust w a) a p2).reset_query = true
  · rw [if_pos h3] at h
    simp only [Except.ok.injEq, Prod.mk.injEq] at h
    obtain ⟨hq, -, -⟩ := h
    subst hq
    exact ⟨congrArg PointerState.wait_unil_release (cb_mark_reset_pointer _ a p2),
           dragInv_of_pointer_eq (cb_mark_reset_pointer _ a p2)⟩
  · rw [if_neg h3] at h
    have hF := press_tail_frame _ _ _ _ _ _ _ _ _ h
    exact frame_step (p := p2) (r := cb_mark_reset (press_top_adjust w a) a p2)
      ⟨congrArg PointerState.wait_unil_release (cb_mark_reset_pointer _ a p2),
       dragInv_of_pointer_eq (cb_mark_reset_pointer _ a p2)⟩ hF

lemma press_newobj_frame (cfg : LvConf) (now : Nat) (w : World) (p : Proc) (pr_obj : Option Nat)
    (tr : List Emit) (q : Proc) (w1 : World) (tr1 : List Emit)
    (h : press_newobj cfg now w p pr_obj tr = Except.ok (q, w1, tr1)) :
    q.pointer.wait_unil_release = p.pointer.wait_unil_release := by
  unfold press_newobj at h
  cases pr_obj with
  | none =>
    simp only at h
    have hF := press_tail_frame _ _ _ _ _ _ _ _ _ h
    exact hF.1
  | some a =>
    simp only at h
    have hF := press_newobj_hit_frame _ _ _ _ _ _ _ _ _ _ h
    exact hF.1

lemma press_newobj_inv (cfg : LvConf) (now : Nat) (w : World) (p : Proc) (pr_obj : Option Nat)
    (tr : List Emit) (q : Proc) (w1 : World) (tr1 : List Emit)
    (h : press_newobj cfg now w p pr_obj tr = Except.ok (q, w1, tr1))
    (hi : DragInv p) : DragInv q := by
  unfold press_newobj at h
  cases pr_obj with
  | none =>
    simp only at h
    have hF := press_tail_frame _ _ _ _ _ _ _ _ _ h
    exact hF.2 (dragInv_of_flags rfl rfl hi)
  | some a =>
    simp only at h
    have hF := press_newobj_hit_frame _ _ _ _ _ _ _ _ _ _ h
    refine hF.2 ?_
    intro hcontra
    exact absurd hcontra (by simp [press_press_state])

lemma indev_proc_press_frame (cfg : LvConf) (now : Nat) (d : LvDisp) (w : World) (p : Proc)
    (q : Proc) (w1 : World) (tr1 : List Emit)
    (h : indev_proc_press cfg now d w p = Except.ok (q, w1, tr1)) :
    q.pointer.wait_unil_release = p.pointer.wait_unil_release ∧ (DragInv p → DragInv q) := by
  unfold indev_proc_press at h
  by_cases hw : p.pointer.wait_unil_release = true
  · rw [if_pos hw] at h
    simp only [Except.ok.injEq, Prod.mk.injEq] at h
    obtain ⟨hq, -, -⟩ := h
    subst hq
    exact ⟨rfl, id⟩
  · rw [if_neg hw] at h
    by_cases h1 : press_target w d p = p.pointer.act_obj
    · rw [if_pos h1] at h
      exact press_tail_frame _ _ _ _ _ _ _ _ _ h
    · rw [if_neg h1] at h
      have hsl : (press_save_last p).pointer.act_obj = p.pointer.act_obj := rfl
      cases hao : p.pointer.act_obj with
      | some oldO =>
        simp only [hsl, hao] at h
        by_cases h2 : (cb_mark_reset w oldO (press_save_last p)).reset_query = true
        · rw [if_pos h2] at h
          simp only [Except.ok.injEq, Prod.mk.injEq] at h
          obtain ⟨hq, -, -⟩ := h
          subst hq
          constructor
          · rw [congrArg PointerState.wait_unil_release (cb_mark_reset_pointer w oldO (press_save_last p))]
            rfl
          · intro hi
            refine dragInv_of_pointer_eq (cb_mark_reset_pointer w oldO (press_save_last p)) ?_
            exact dragInv_of_flags rfl rfl hi
        · rw [if_neg h2] at h
          have hwq := press_newobj_frame _ _ _ _ _ _ _ _ _ h
          constructor
          · rw [hwq, congrArg PointerState.wait_unil_release (cb_mark_reset_pointer w oldO (press_save_last p))]
            rfl
          · intro hi
            refine press_newobj_inv _ _ _ _ _ _ _ _ _ h ?_
            refine dragInv_of_pointer_eq (cb_mark_reset_pointer w oldO (press_save_last p)) ?_
            exact dragInv_of_flags rfl rfl hi
      | none =>
        simp only [hsl, hao] at h
        have hwq := press_newobj_frame _ _ _ _ _ _ _ _ _ h
        constructor
        · rw [hwq]
          rfl
        · intro hi
          exact press_newobj_inv _ _ _ _ _ _ _ _ _ h (dragInv_of_flags rfl rfl hi)

lemma release_throw_frame (cfg : LvConf) (w : World) (p : Proc) (tr : List Emit)
    (q : Proc) (w1 : World) (tr1 : List Emit)
    (h : release_throw cfg w p tr = Except.ok (q, w1, tr1)) :
    q.pointer.wait_unil_release = p.pointer.wait_unil_release ∧ (DragInv p → DragInv q) := by
  unfold release_throw at h
  by_cases hc : (p.pointer.last_obj.isSome && p.reset_query = false) = true
  · rw [if_pos hc] at h
    cases hT : indev_drag_throw cfg w p with
    | error e =>
      rw [hT] at h
      exact absurd h (by simp)
    | ok r =>
      obtain ⟨q2, w2, tr2⟩ := r
      rw [hT] at h
      simp only [Except.ok.injEq, Prod.mk.injEq] at h
      obtain ⟨hq, -, -⟩ := h
      subst hq
      exact indev_drag_throw_frame _ _ _ _ _ _ hT
  · rw [if_neg hc] at h
    simp only [Except.ok.injEq, Prod.mk.injEq] at h
    obtain ⟨hq, -, -⟩ := h
    subst hq
    exact ⟨rfl, id⟩

lemma release_act_frame (cfg : LvConf) (w : World) (p : Proc) (a : Nat)
    (q : Proc) (w1 : World) (tr1 : List Emit)
    (h : release_act cfg w p a = Except.ok (q, w1, tr1)) :
    q.pointer.wait_unil_release = p.pointer.wait_unil_release ∧ (DragInv p → DragInv q) := by
  unfold release_act at h
  by_cases h1 : (cb_mark_reset w a p).reset_query = true
  · rw [if_pos h1] at h
    simp only [Except.ok.injEq, Prod.mk.injEq] at h
    obtain ⟨hq, -, -⟩ := h
    subst hq
    exact ⟨congrArg PointerState.wait_unil_release (cb_mark_reset_pointer w a p),
           dragInv_of_pointer_eq (cb_mark_reset_pointer w a p)⟩
  · rw [if_neg h1] at h
    rw [if_neg h1] at h
    have hF := release_throw_frame _ _ _ _ _ _ _ h
    refine frame_step (p := p) (r := cb_mark_reset w a p)
      ⟨congrArg PointerState.wait_unil_release (cb_mark_reset_pointer w a p),
       dragInv_of_pointer_eq (cb_mark_reset_pointer w a p)⟩ ?_
    exact frame_step (p := cb_mark_reset w a p) ⟨rfl, dragInv_of_flags rfl rfl⟩ hF

lemma indev_proc_release_wait_eq (cfg : LvConf) (w : World) (p : Proc)
    (hw : p.pointer.wait_unil_release = true) :
    indev_proc_release cfg w p =
      Except.ok ({ p with
        pointer := { p.pointer with act_obj := none, last_obj := none, wait_unil_release := false },
        pr_timestamp := 0, longpr_rep_timestamp := 0 }, w, []) := by
  simp [indev_proc_release, release_throw, hw]

lemma indev_proc_release_inv (cfg : LvConf) (w : World) (p : Proc)
    (q : Proc) (w1 : World) (tr1 : List Emit)
    (h : indev_proc_release cfg w p = Except.ok (q, w1, tr1)) :
    DragInv p → DragInv q := by
  intro hi
  by_cases hw : p.pointer.wait_unil_release = true
  · rw [indev_proc_release_wait_eq cfg w p hw] at h
    simp only [Except.ok.injEq, Prod.mk.injEq] at h
    obtain ⟨hq, -, -⟩ := h
    subst hq
    exact dragInv_of_flags rfl rfl hi
  · simp only [indev_proc_release] at h
    rw [if_neg hw] at h
    cases hao : p.pointer.act_obj with
    | some a =>
      rw [hao] at h
      exact (release_act_frame _ _ _ _ _ _ _ h).2 hi
    | none =>
      rw [hao] at h
      exact (release_throw_frame _ _ _ _ _ _ _ h).2 hi

/-- A display whose three search roots are all widget 0. -/
def fix_disp : LvDisp := { layer_sys := 0, layer_top := 0, scr_act := 0 }

/-- C4: every operation of the pointer-family core (press path, release
path, drag, throw, reset handling) preserves the invariant that
drag_in_prog implies drag_limit_out, and the initial processing state
satisfies it; so it holds in every reachable state.  drag_in_prog is set
only inside the drag engine's branch guarded by drag_limit_out (lines
904-929), and the reset handler clears both flags together (lines
819-820). -/
theorem C4_drag_invariant
    (op : CoreOp) (cfg : LvConf) (now : Nat) (d : LvDisp) (w : World) (p : Proc)
    (q : Proc) (w1 : World) (tr : List Emit)
    (hinv : p.pointer.drag_in_prog = true → p.pointer.drag_limit_out = true)
    (hrun : run_op op cfg now d w p = Except.ok (q, w1, tr)) :
    (q.pointer.drag_in_prog = true → q.pointer.drag_limit_out = true) ∧
    proc_init.pointer.drag_in_prog = false := by
  refine ⟨?_, rfl⟩
  have hinv2 : DragInv p := hinv
  cases op with
  | press =>
    simp only [run_op] at hrun
    exact (indev_proc_press_frame _ _ _ _ _ _ _ _ hrun).2 hinv2
  | release =>
    simp only [run_op] at hrun
    exact indev_proc_release_inv _ _ _ _ _ _ hrun hinv2
  | drag =>
    simp only [run_op] at hrun
    exact (indev_drag_frame _ _ _ _ _ _ hrun).2 hinv2
  | throwStep =>
    simp only [run_op] at hrun
    exact (indev_drag_throw_frame _ _ _ _ _ _ hrun).2 hinv2
  | resetQ =>
    simp only [run_op, Except.ok.injEq, Prod.mk.injEq] at hrun
    obtain ⟨hq, -, -⟩ := hrun
    subst hq
    unfold indev_proc_reset_query_handler
    split
    · intro hc
      exact absurd hc (by simp)
    · exact hinv2

/-- State reached after the drag step of c1_p: the dead-zone stays crossed
and the drag is now in progress. -/
def c4_q : Proc :=
  { c1_p with pointer := { c1_p.pointer with drag_sum := ⟨25, 0⟩, drag_in_prog := true } }

/-- World after that drag step: widget 0 moved by the vector. -/
def c4_w : World := { objs := [{ fix_obj with coords := ⟨5, 0, 15, 10⟩ }], groups := [], invCount := 1 }

/-- Witness for C4 on a concrete drag step from c1_p. -/
theorem C4_drag_invariant_witness :
    (c4_q.pointer.drag_in_prog = true → c4_q.pointer.drag_limit_out = true) ∧
    proc_init.pointer.drag_in_prog = false :=
  C4_drag_invariant CoreOp.drag fix_cfg 0 fix_disp fix_w c1_p c4_q c4_w []
    (by decide) (by decide)

/-- C9: while wait_unil_release is set the press path does nothing at all
(line 586: no event, no state change), and only the release path clears the
flag, clearing act_obj, last_obj and both press timestamps with it (lines
719-725); every other operation (press, drag, throw, reset handling) leaves
the flag set. -/
theorem C9_wait_until_release
    (cfg : LvConf) (now : Nat) (d : LvDisp) (w : World) (p : Proc) (op : CoreOp)
    (q : Proc) (w1 : World) (tr : List Emit)
    (hw : p.pointer.wait_unil_release = true)
    (hop : op ≠ CoreOp.release)
    (hrun : run_op op cfg now d w p = Except.ok (q, w1, tr)) :
    indev_proc_press cfg now d w p = Except.ok (p, w, []) ∧
    indev_proc_release cfg w p = Except.ok ({ p with
      pointer := { p.pointer with act_obj := none, last_obj := none, wait_unil_release := false },
      pr_timestamp := 0, longpr_rep_timestamp := 0 }, w, []) ∧
    q.pointer.wait_unil_release = true := by
  refine ⟨?_, indev_proc_release_wait_eq cfg w p hw, ?_⟩
  · unfold indev_proc_press
    rw [if_pos hw]
  · cases op with
    | press =>
      simp only [run_op] at hrun
      exact ((indev_proc_press_frame _ _ _ _ _ _ _ _ hrun).1).trans hw
    | release => exact absurd rfl hop
    | drag =>
      simp only [run_op] at hrun
      exact ((indev_drag_frame _ _ _ _ _ _ hrun).1).trans hw
    | throwStep =>
      simp only [run_op] at hrun
      exact ((indev_drag_throw_frame _ _ _ _ _ _ hrun).1).trans hw
    | resetQ =>
      simp only [run_op, Except.ok.injEq, Prod.mk.injEq] at hrun
      obtain ⟨hq, -, -⟩ := hrun
      subst hq
      unfold indev_proc_reset_query_handler
      split
      · exact hw
      · exact hw

/-- A waiting state: wait_unil_release is set while an active object and
press timestamps are still around. -/
def c9_p : Proc :=
  { c2_p with pointer := { c2_p.pointer with wait_unil_release := true, last_obj := some 0 } }

/-- Witness for C9 at the waiting state c9_p with the press operation. -/
theorem C9_wait_until_release_witness :
    indev_proc_press fix_cfg 0 fix_disp fix_w c9_p = Except.ok (c9_p, fix_w, []) ∧
    indev_proc_release fix_cfg fix_w c9_p = Except.ok ({ c9_p with
      pointer := { c9_p.pointer with act_obj := none, last_obj := none, wait_unil_release := false },
      pr_timestamp := 0, longpr_rep_timestamp := 0 }, fix_w, []) ∧
    c9_p.pointer.wait_unil_release = true :=
  C9_wait_until_release fix_cfg 0 fix_disp fix_w c9_p CoreOp.press c9_p fix_w []
    (by decide) (by decide) (by decide)

/-- C6: on the keypad PR to REL edge the dispatched key is the one restored
from last_key (line 420, guarding against hardware that clears the key on
release: the sample's own key field is never consulted), and when that
restored key is ENTER, RELEASED and CLICKED are emitted to the focused
widget exactly when long_pr_sent is false (lines 432-436); the press timer
and long_pr_sent are then cleared and last_key keeps the restored key. -/
theorem C6_keypad_release_enter
    (cfg : LvConf) (now : Nat) (gid : Nat) (w : World) (p : Proc) (data : IndevData) (f : Nat)
    (hfoc : lv_group_get_focused w gid = some f)
    (hlast : p.keypad.last_state = IndevState.pr)
    (hstate : data.state = IndevState.rel)
    (hkey : p.keypad.last_key = LV_GROUP_KEY_ENTER)
    (hcb : cb_reset_of w f = false)
    (hreset : p.reset_query = false) :
    indev_keypad_proc cfg now (some gid) w p data =
      Except.ok ({ p with pr_timestamp := 0, long_pr_sent := false, keypad := ⟨IndevState.rel, p.keypad.last_key⟩ }, w,
        if p.long_pr_sent then []
        else [Emit.signal f LvSignal.released, Emit.event f (EvMsg.ev LvEvent.clicked)]) := by
  simp only [indev_keypad_proc, hstate, hlast, hkey, hfoc, hreset, hcb, cb_mark_reset, kp_rel_fin,
    LV_GROUP_KEY_ENTER, LV_GROUP_KEY_NEXT, LV_GROUP_KEY_PREV]
  norm_num
  cases hlp : p.long_pr_sent <;> simp_all

/-- A focus group holding widget 0, focused on it, in navigate mode. -/
def c6_grp : GroupRec := { objs := [0], focused := some 0, editing := false, clickFocus := false }

/-- A world with widget 0 and that group. -/
def c6_w : World := { objs := [fix_obj], groups := [c6_grp], invCount := 0 }

/-- A keypad state that saw ENTER pressed on the previous sample. -/
def c6_p : Proc := { proc_init with keypad := ⟨IndevState.pr, LV_GROUP_KEY_ENTER⟩ }

/-- A release sample whose key field was cleared by the hardware. -/
def c6_data : IndevData :=
  { point := ⟨0, 0⟩, key := 0, btn_id := 0, enc_diff := 0, state := IndevState.rel }

/-- Witness for C6: the cleared key of the sample is restored from
last_key, and released plus clicked reach the focused widget. -/
theorem C6_keypad_release_enter_witness :
    indev_keypad_proc fix_cfg 0 (some 0) c6_w c6_p c6_data =
      Except.ok ({ c6_p with pr_timestamp := 0, long_pr_sent := false, keypad := ⟨IndevState.rel, c6_p.keypad.last_key⟩ }, c6_w,
        if c6_p.long_pr_sent then []
        else [Emit.signal 0 LvSignal.released, Emit.event 0 (EvMsg.ev LvEvent.clicked)]) :=
  C6_keypad_release_enter fix_cfg 0 0 c6_w c6_p c6_data 0
    (by decide) (by decide) (by decide) (by decide) (by decide) (by decide)

lemma button_map_eq (e : Except Unit (Proc × World × List Emit)) :
    (match e with
     | Except.error er => Except.error er
     | Except.ok (q, w1, tr) =>
       Except.ok ({ q with pointer.last_point := q.pointer.act_point }, w1, tr)) =
      e.map (fun r => ({ r.1 with pointer.last_point := r.1.pointer.act_point }, r.2.1, r.2.2)) := by
  cases e with
  | error er => rfl
  | ok r =>
    obtain ⟨q, w1, tr⟩ := r
    rfl

/-- C8: the button-array adapter resolves the sample's button id through
the configured button-to-point table into act_point and invokes the press
path exactly when the resolved point equals last_point and the state is
pressed (lines 560-572); any sample whose resolved point differs from
last_point takes the release path regardless of its state; either way
last_point is then refreshed from act_point. -/
theorem C8_button_dispatch
    (cfg : LvConf) (now : Nat) (d : LvDisp) (btn_points : List LvPoint) (w : World)
    (p : Proc) (data : IndevData) (pt : LvPoint)
    (hpt : btn_points.get? data.btn_id = some pt) :
    (pt = p.pointer.last_point ∧ data.state = IndevState.pr →
      indev_button_proc cfg now d btn_points w p data =
        (indev_proc_press cfg now d w { p with pointer.act_point := pt }).map
          (fun r => ({ r.1 with pointer.last_point := r.1.pointer.act_point }, r.2.1, r.2.2))) ∧
    (¬(pt = p.pointer.last_point ∧ data.state = IndevState.pr) →
      indev_button_proc cfg now d btn_points w p data =
        (indev_proc_release cfg w { p with pointer.act_point := pt }).map
          (fun r => ({ r.1 with pointer.last_point := r.1.pointer.act_point }, r.2.1, r.2.2))) ∧
    (pt ≠ p.pointer.last_point →
      indev_button_proc cfg now d btn_points w p data =
        (indev_proc_release cfg w { p with pointer.act_point := pt }).map
          (fun r => ({ r.1 with pointer.last_point := r.1.pointer.act_point }, r.2.1, r.2.2))) := by
  unfold indev_button_proc
  rw [hpt]
  simp only [button_map_eq, Bool.and_eq_true, decide_eq_true_eq]
  refine ⟨?_, ?_, ?_⟩
  · rintro ⟨h1, h2⟩
    rw [if_pos ⟨h1.symm, h2⟩]
  · intro hn
    rw [if_neg (fun hc => hn ⟨hc.1.symm, hc.2⟩)]
  · intro hne
    rw [if_neg (fun hc => hne hc.1.symm)]

/-- A one-entry button table pointing at (5, 5). -/
def c8_table : List LvPoint := [⟨5, 5⟩]

/-- A pressed sample of button 0. -/
def c8_data : IndevData :=
  { point := ⟨0, 0⟩, key := 0, btn_id := 0, enc_diff := 0, state := IndevState.pr }

/-- Witness for C8 with the resolved point equal to last_point. -/
theorem C8_button_dispatch_witness :
    ((⟨5, 5⟩ : LvPoint) = c2_p.pointer.last_point ∧ c8_data.state = IndevState.pr →
      indev_button_proc fix_cfg 0 fix_disp c8_table fix_w c2_p c8_data =
        (indev_proc_press fix_cfg 0 fix_disp fix_w { c2_p with pointer.act_point := ⟨5, 5⟩ }).map
          (fun r => ({ r.1 with pointer.last_point := r.1.pointer.act_point }, r.2.1, r.2.2))) ∧
    (¬((⟨5, 5⟩ : LvPoint) = c2_p.pointer.last_point ∧ c8_data.state = IndevState.pr) →
      indev_button_proc fix_cfg 0 fix_disp c8_table fix_w c2_p c8_data =
        (indev_proc_release fix_cfg fix_w { c2_p with pointer.act_point := ⟨5, 5⟩ }).map
          (fun r => ({ r.1 with pointer.last_point := r.1.pointer.act_point }, r.2.1, r.2.2))) ∧
    ((⟨5, 5⟩ : LvPoint) ≠ c2_p.pointer.last_point →
      indev_button_proc fix_cfg 0 fix_disp c8_table fix_w c2_p c8_data =
        (indev_proc_release fix_cfg fix_w { c2_p with pointer.act_point := ⟨5, 5⟩ }).map
          (fun r => ({ r.1 with pointer.last_point := r.1.pointer.act_point }, r.2.1, r.2.2))) :=
  C8_button_dispatch fix_cfg 0 fix_disp c8_table fix_w c2_p c8_data ⟨5, 5⟩ (by decide)

lemma point_on_mono (inner outer : LvArea) (pt : LvPoint)
    (hin : area_inside inner outer = true)
    (hoff : lv_area_is_point_on outer pt = false) :
    lv_area_is_point_on inner pt = false := by
  rcases hx : lv_area_is_point_on inner pt with _ | _
  · rfl
  · exfalso
    simp only [lv_area_is_point_on, Bool.and_eq_true, decide_eq_true_eq] at hx
    simp only [area_inside, Bool.and_eq_true, decide_eq_true_eq] at hin
    have hon : lv_area_is_point_on outer pt = true := by
      simp only [lv_area_is_point_on, Bool.and_eq_true, decide_eq_true_eq]
      omega
    rw [hon] at hoff
    exact Bool.noConfusion hoff

lemma wf_edge (w : World) (hwf : wf_containedB w = true) (i : Nat) (o : ObjRec) (c : Nat)
    (oc : ObjRec) (hi : obj_at w i = some o) (hc : c ∈ o.children) (hoc : obj_at w c = some oc) :
    area_inside oc.coords o.coords = true := by
  unfold wf_containedB at hwf
  rw [List.all_eq_true] at hwf
  have hilen : i < w.objs.length := by
    obtain ⟨hlt, -⟩ := List.get?_eq_some.mp hi
    exact hlt
  have h2 := hwf i (List.mem_range.mpr hilen)
  rw [hi] at h2
  rw [List.all_eq_true] at h2
  have h3 := h2 c hc
  rw [hoc] at h3
  exact h3

lemma find_target_core_off (w : World) (pt : LvPoint) (hwf : wf_containedB w = true) :
    ∀ fuel l, (∀ c ∈ l, ∀ oc, obj_at w c = some oc → lv_area_is_point_on oc.coords pt = false) →
      find_target_core w pt fuel l = none := by
  intro fuel
  induction fuel with
  | zero =>
    intro l hl
    cases l with
    | nil => rfl
    | cons c rest => rfl
  | succ f ih =>
    intro l hl
    cases l with
    | nil => rfl
    | cons c rest =>
      simp only [find_target_core]
      cases hoc : obj_at w c with
      | none =>
        exact ih rest (fun x hx => hl x (List.mem_cons_of_mem c hx))
      | some o =>
        have hoffo : lv_area_is_point_on o.coords pt = false :=
          hl c (List.mem_cons_self c rest) o hoc
        have hchild : find_target_core w pt f o.children = none := by
          refine ih o.children ?_
          intro cc hcc occ hocc
          exact point_on_mono occ.coords o.coords pt (wf_edge w hwf c o cc occ hoc hcc hocc) hoffo
        simp only [hchild, hoffo, Bool.false_and, if_false]
        exact ih rest (fun x hx => hl x (List.mem_cons_of_mem c hx))

lemma search_eq_spec (w : World) (pt : LvPoint) (hwf : wf_containedB w = true) :
    ∀ fuel l, search_core w pt fuel l = find_target_core w pt fuel l := by
  intro fuel
  induction fuel with
  | zero =>
    intro l
    cases l <;> rfl
  | succ f ih =>
    intro l
    cases l with
    | nil => rfl
    | cons c rest =>
      simp only [search_core, find_target_core]
      cases hoc : obj_at w c with
      | none => exact ih rest
      | some o =>
        by_cases hpt : lv_area_is_point_on o.coords pt = true
        · simp only [hpt, if_true, Bool.true_and, ih o.children]
          cases hch : find_target_core w pt f o.children with
          | some r => rfl
          | none =>
            by_cases hck : (o.click && !(hidden_chain w (walk_fuel w) (some c))) = true
            · rw [if_pos hck, if_pos hck]
            · rw [if_neg hck, if_neg hck]
              exact ih rest
        · have hptf : lv_area_is_point_on o.coords pt = false := by
            rcases hx : lv_area_is_point_on o.coords pt with _ | _
            · rfl
            · exact absurd hx hpt
          have hchild : find_target_core w pt f o.children = none := by
            refine find_target_core_off w pt hwf f o.children ?_
            intro cc hcc occ hocc
            exact point_on_mono occ.coords o.coords pt (wf_edge w hwf c o cc occ hoc hcc hocc) hptf
          simp only [hptf, if_false, hchild, Bool.false_and]
          exact ih rest

/-- A scene whose clickable child sticks out entirely beyond its
unclickable parent's bounds. -/
def c3_w : World :=
  { objs := [
      { parent := none, children := [1], coords := ⟨0, 0, 5, 5⟩, click := false, hidden := false,
        top := false, drag := false, dragThrow := false, dragParent := false,
        protPressLost := false, protClickFocus := false, movable := true, editable := false,
        cbReset := false, group := none },
      { parent := some 0, children := [], coords := ⟨10, 10, 20, 20⟩, click := true, hidden := false,
        top := false, drag := false, dragThrow := false, dragParent := false,
        protPressLost := false, protClickFocus := false, movable := true, editable := false,
        cbReset := false, group := none }],
    groups := [], invCount := 0 }

/-- The probe point, inside the child and outside the parent. -/
def c3_pt : LvPoint := ⟨15, 15⟩

/-- C3 (counterexample): widget 1 of c3_w satisfies every condition the
claim lists for the hit - the point lies in its bounds, it is clickable,
neither it nor any ancestor is hidden, and it has no descendants at all -
and the spec-worded depth-first children-first search returns it; yet the
source's indev_search_obj returns none, because it prunes the whole
subtree once the point lies outside the parent's bounds (line 843 tests
the point against the widget before looking at its children).  So the
claim as stated is false on the code. -/
theorem C3_pruned_search_misses_qualifying_widget :
    indev_search_obj c3_w c3_pt (search_fuel c3_w) 0 = none ∧
    lv_area_is_point_on (coords_of c3_w 1) c3_pt = true ∧
    lv_obj_get_click c3_w 1 = true ∧
    hidden_chain c3_w (walk_fuel c3_w) (some 1) = false ∧
    (obj_at c3_w 1).map ObjRec.children = some [] ∧
    find_target_spec c3_w c3_pt (search_fuel c3_w) 0 = some 1 := by
  decide

/-- C3 (amended): provided every child's bounds lie inside its parent's
bounds, the source's hit-tester agrees with the spec-worded one - it
returns the first widget of the depth-first children-first traversal whose
bounds contain the point, which is clickable, has no hidden ancestor and
none of whose descendants hit; and the press path's root search tries
system layer, top layer and active screen in that order, stopping at the
first hit. -/
theorem C3_search_first_qualifying
    (w : World) (pt : LvPoint) (d : LvDisp) (fuel : Nat) (l : List Nat) (root : Nat)
    (hwf : wf_containedB w = true) :
    search_core w pt fuel l = find_target_core w pt fuel l ∧
    indev_search_obj w pt fuel root = find_target_spec w pt fuel root ∧
    indev_press_search w pt d =
      ((indev_search_obj w pt (search_fuel w) d.layer_sys).orElse (fun _ =>
        (indev_search_obj w pt (search_fuel w) d.layer_top).orElse (fun _ =>
          indev_search_obj w pt (search_fuel w) d.scr_act))) := by
  refine ⟨search_eq_spec w pt hwf fuel l, search_eq_spec w pt hwf fuel [root], ?_⟩
  unfold indev_press_search
  cases indev_search_obj w pt (search_fuel w) d.layer_sys <;>
    cases indev_search_obj w pt (search_fuel w) d.layer_top <;> rfl

/-- The c3_w scene with the parent grown to contain its child, making the
containment well-formedness hold. -/
def c3_wfw : World :=
  { objs := [
      { parent := none, children := [1], coords := ⟨0, 0, 20, 20⟩, click := false, hidden := false,
        top := false, drag := false, dragThrow := false, dragParent := false,
        protPressLost := false, protClickFocus := false, movable := true, editable := false,
        cbReset := false, group := none },
      { parent := some 0, children := [], coords := ⟨10, 10, 20, 20⟩, click := true, hidden := false,
        top := false, drag := false, dragThrow := false, dragParent := false,
        protPressLost := false, protClickFocus := false, movable := true, editable := false,
        cbReset := false, group := none }],
    groups := [], invCount := 0 }

/-- Witness for the amended C3 on the well-formed two-widget scene. -/
theorem C3_search_first_qualifying_witness :
    search_core c3_wfw c3_pt 7 [0] = find_target_core c3_wfw c3_pt 7 [0] ∧
    indev_search_obj c3_wfw c3_pt 7 0 = find_target_spec c3_wfw c3_pt 7 0 ∧
    indev_press_search c3_wfw c3_pt fix_disp =
      ((indev_search_obj c3_wfw c3_pt (search_fuel c3_wfw) fix_disp.layer_sys).orElse (fun _ =>
        (indev_search_obj c3_wfw c3_pt (search_fuel c3_wfw) fix_disp.layer_top).orElse (fun _ =>
          indev_search_obj c3_wfw c3_pt (search_fuel c3_wfw) fix_disp.scr_act))) :=
  C3_search_first_qualifying c3_wfw c3_pt fix_disp 7 [0] 0 (by decide)

lemma kp_rel_fin_trace (w : World) (p : Proc) (st : IndevState) (key : Nat) (tr : List Emit)
    (q : Proc) (w1 : World) (tr1 : List Emit)
    (h : kp_rel_fin w p st key tr = Except.ok (q, w1, tr1)) : tr1 = tr := by
  unfold kp_rel_fin at h
  split at h <;> (simp only [Except.ok.injEq, Prod.mk.injEq] at h; exact h.2.2.symm)

lemma enc_steps_counts (w : World) (gid : Nat) (data : IndevData)
    (hstate : data.state = IndevState.rel) :
    (lv_group_get_editing w (some gid) = false →
       (enc_steps w gid data).count Emit.groupFocusNext = data.enc_diff.toNat ∧
       (enc_steps w gid data).count Emit.groupFocusPrev = (-data.enc_diff).toNat ∧
       (enc_steps w gid data).count (Emit.groupSendData LV_GROUP_KEY_LEFT) = 0 ∧
       (enc_steps w gid data).count (Emit.groupSendData LV_GROUP_KEY_RIGHT) = 0) ∧
    (lv_group_get_editing w (some gid) = true →
       (enc_steps w gid data).count (Emit.groupSendData LV_GROUP_KEY_RIGHT) = data.enc_diff.toNat ∧
       (enc_steps w gid data).count (Emit.groupSendData LV_GROUP_KEY_LEFT) = (-data.enc_diff).toNat ∧
       (enc_steps w gid data).count Emit.groupFocusNext = 0 ∧
       (enc_steps w gid data).count Emit.groupFocusPrev = 0) := by
  unfold enc_steps
  rw [hstate]
  norm_num
  constructor
  · intro hedit
    rw [hedit]
    norm_num
    rcases lt_trichotomy data.enc_diff 0 with hd | hd | hd
    · rw [if_pos hd]
      simp [List.count_replicate, LV_GROUP_KEY_LEFT, LV_GROUP_KEY_RIGHT]
      all_goals omega
    · rw [if_neg (by omega), if_neg (by omega)]
      simp
      all_goals omega
    · rw [if_neg (by omega), if_pos hd]
      simp [List.count_replicate, LV_GROUP_KEY_LEFT, LV_GROUP_KEY_RIGHT]
      all_goals omega
  · intro hedit
    rw [hedit]
    norm_num
    rcases lt_trichotomy data.enc_diff 0 with hd | hd | hd
    · rw [if_pos hd]
      simp [List.count_replicate, LV_GROUP_KEY_LEFT, LV_GROUP_KEY_RIGHT]
      all_goals omega
    · rw [if_neg (by omega), if_neg (by omega)]
      simp
      all_goals omega
    · rw [if_neg (by omega), if_pos hd]
      simp [List.count_replicate, LV_GROUP_KEY_LEFT, LV_GROUP_KEY_RIGHT]
      all_goals omega

lemma C7_trace_shape (cfg : LvConf) (now : Nat) (gid : Nat) (w : World) (p : Proc)
    (data : IndevData) (q : Proc) (w1 : World) (tr : List Emit)
    (hstate : data.state = IndevState.rel)
    (hrun : indev_encoder_proc cfg now (some gid) w p data = Except.ok (q, w1, tr)) :
    ∃ ex : List Emit, tr = enc_steps w gid data ++ ex ∧
      ex.count Emit.groupFocusNext = 0 ∧ ex.count Emit.groupFocusPrev = 0 ∧
      ex.count (Emit.groupSendData LV_GROUP_KEY_LEFT) = 0 ∧
      ex.count (Emit.groupSendData LV_GROUP_KEY_RIGHT) = 0 := by
  cases hlast : p.keypad.last_state with
  | rel =>
    simp only [indev_encoder_proc, hstate, hlast, reduceCtorEq] at hrun
    norm_num at hrun
    obtain ⟨-, -, htr⟩ := hrun
    refine ⟨[], ?_, rfl, rfl, rfl, rfl⟩
    rw [← htr, List.append_nil]
  | pr =>
    simp only [indev_encoder_proc, hstate, hlast, reduceCtorEq] at hrun
    norm_num at hrun
    repeat' split at hrun
    all_goals have htr := kp_rel_fin_trace _ _ _ _ _ _ _ _ hrun
    all_goals subst htr
    all_goals refine ⟨_, rfl, ?_, ?_, ?_, ?_⟩
    all_goals simp [List.count_append, List.count_cons, LV_GROUP_KEY_ENTER,
      LV_GROUP_KEY_LEFT, LV_GROUP_KEY_RIGHT]

/-- C7: with a configured group, every sample whose state is released
applies exactly abs(enc_diff) discrete steps (lines 467-487, run for any
released sample before the edge dispatch): in edit mode enc_diff sends of
LEFT (negative) or RIGHT (positive), in navigate mode enc_diff focus-prev
or focus-next calls, counted over the whole emission trace of the sample
(a PR to REL edge may add ENTER sends, editability queries or an edit-mode
toggle, none of which are steps); the opposite-direction and opposite-mode
counts are zero. -/
theorem C7_encoder_steps
    (cfg : LvConf) (now : Nat) (gid : Nat) (w : World) (p : Proc) (data : IndevData)
    (q : Proc) (w1 : World) (tr : List Emit)
    (hstate : data.state = IndevState.rel)
    (hrun : indev_encoder_proc cfg now (some gid) w p data = Except.ok (q, w1, tr)) :
    (lv_group_get_editing w (some gid) = false →
       tr.count Emit.groupFocusNext = data.enc_diff.toNat ∧
       tr.count Emit.groupFocusPrev = (-data.enc_diff).toNat ∧
       tr.count (Emit.groupSendData LV_GROUP_KEY_LEFT) = 0 ∧
       tr.count (Emit.groupSendData LV_GROUP_KEY_RIGHT) = 0) ∧
    (lv_group_get_editing w (some gid) = true →
       tr.count (Emit.groupSendData LV_GROUP_KEY_RIGHT) = data.enc_diff.toNat ∧
       tr.count (Emit.groupSendData LV_GROUP_KEY_LEFT) = (-data.enc_diff).toNat ∧
       tr.count Emit.groupFocusNext = 0 ∧
       tr.count Emit.groupFocusPrev = 0) := by
  obtain ⟨ex, htr, e1, e2, e3, e4⟩ := C7_trace_shape cfg now gid w p data q w1 tr hstate hrun
  subst htr
  have hs := enc_steps_counts w gid data hstate
  constructor
  · intro hedit
    obtain ⟨s1, s2, s3, s4⟩ := hs.1 hedit
    refine ⟨?_, ?_, ?_, ?_⟩ <;> rw [List.count_append] <;> omega
  · intro hedit
    obtain ⟨s1, s2, s3, s4⟩ := hs.2 hedit
    refine ⟨?_, ?_, ?_, ?_⟩ <;> rw [List.count_append] <;> omega

/-- An encoder sample: released, three detents forward. -/
def c7_data : IndevData :=
  { point := ⟨0, 0⟩, key := 0, btn_id := 0, enc_diff := 3, state := IndevState.rel }

/-- Witness for C7, the spec scenario S5: navigate mode, enc_diff = +3
yields exactly three focus-next calls. -/
theorem C7_encoder_steps_witness :
    (lv_group_get_editing c6_w (some 0) = false →
       (List.replicate 3 Emit.groupFocusNext).count Emit.groupFocusNext = c7_data.enc_diff.toNat ∧
       (List.replicate 3 Emit.groupFocusNext).count Emit.groupFocusPrev = (-c7_data.enc_diff).toNat ∧
       (List.replicate 3 Emit.groupFocusNext).count (Emit.groupSendData LV_GROUP_KEY_LEFT) = 0 ∧
       (List.replicate 3 Emit.groupFocusNext).count (Emit.groupSendData LV_GROUP_KEY_RIGHT) = 0) ∧
    (lv_group_get_editing c6_w (some 0) = true →
       (List.replicate 3 Emit.groupFocusNext).count (Emit.groupSendData LV_GROUP_KEY_RIGHT) = c7_data.enc_diff.toNat ∧
       (List.replicate 3 Emit.groupFocusNext).count (Emit.groupSendData LV_GROUP_KEY_LEFT) = (-c7_data.enc_diff).toNat ∧
       (List.replicate 3 Emit.groupFocusNext).count Emit.groupFocusNext = 0 ∧
       (List.replicate 3 Emit.groupFocusNext).count Emit.groupFocusPrev = 0) :=
  C7_encoder_steps fix_cfg 0 0 c6_w proc_init c7_data proc_init c6_w
    (List.replicate 3 Emit.groupFocusNext) (by decide) (by decide)
